import Mathlib

/-!
# Timer: a start/stop timer over two operating-system backends

Shallow embedding of `Timer.h` / `Timer.cpp`.

* The public object (`period`, `callback`, `isPeriodic`, `isRunning`, `impl`) is the
  structure `Timer`, parametrised by the backend state `TimerImpl`.
* Variant B (`__linux__`: timerfd + epoll + a `std::thread`) lives in namespace `Linux`.
* Variant A (`_WIN32`: timer queue + timer-queue timer) lives in namespace `Win32`.

Operating-system calls are modelled by small transition functions on a kernel state;
whether a call is rejected by the system is an explicit argument of the call.
Member functions become functions on a `World` (object + kernel state + the log of
callback invocations).  C++ exceptions and `std::terminate` are recorded in `Exit`.
-/

namespace TimerSpec

/-! ## Timer.h -/

/-- The tick count of `Interval` (`std::chrono::milliseconds`, Timer.h line 6):
a signed 64-bit number of milliseconds. -/
abbrev Interval := Int

/-- The type `TimerCallback` (`std::function<void(void)>`, Timer.h line 7).  `none` is the
empty function object; `some k` is a callable, identified by `k`.  Calling it appends `k`
to the invocation log of the world; a callable does not touch the timer itself. -/
abbrev TimerCallback := Option Nat

/-- The class `Timer` (Timer.h lines 28-34), over the backend state `I = Timer::TimerImpl`. -/
structure Timer (I : Type) where
  period : Interval
  callback : TimerCallback
  isPeriodic : Bool
  isRunning : Bool
  impl : I
  deriving DecidableEq, Repr

/-- How a call of a member function ends. -/
inductive Exit where
  /-- normal return -/
  | returned
  /-- a `std::runtime_error` leaves the function (Timer.cpp lines 41, 131, 202) -/
  | runtime_error
  /-- The function `std::terminate` is called, the process ends -/
  | terminated
  deriving DecidableEq, Repr

/-- Member `Timer::GetPeriod` (Timer.cpp lines 54-57). -/
def GetPeriod {I : Type} (t : Timer I) : Interval := t.period

/-- Member `Timer::SetPeriod` (Timer.cpp lines 59-62). -/
def SetPeriod {I : Type} (t : Timer I) (new_period : Interval) : Timer I :=
  { t with period := new_period }

/-- Member `Timer::GetCallback` (Timer.cpp lines 64-67). -/
def GetCallback {I : Type} (t : Timer I) : TimerCallback := t.callback

/-- Member `Timer::SetCallback` (Timer.cpp lines 69-72). -/
def SetCallback {I : Type} (t : Timer I) (new_callback : TimerCallback) : Timer I :=
  { t with callback := new_callback }

/-- Member `Timer::IsPeriodic` (Timer.cpp lines 74-77). -/
def IsPeriodic {I : Type} (t : Timer I) : Bool := t.isPeriodic

/-- Member `Timer::SetPeriodic` (Timer.cpp lines 79-82). -/
def SetPeriodic {I : Type} (t : Timer I) (periodic : Bool) : Timer I :=
  { t with isPeriodic := periodic }

/-- Member `Timer::IsRunning` (Timer.cpp lines 84-87). -/
def IsRunning {I : Type} (t : Timer I) : Bool := t.isRunning

/-- Calling a `TimerCallback` that was tested non-empty: `GetCallback()()`. -/
def invoke (c : TimerCallback) (invoked : List Nat) : List Nat :=
  match c with
  | none => invoked
  | some k => invoked ++ [k]

/-- Conversion of a 64-bit value to `int` (`static_cast<int>`), and the result of `int`
arithmetic: the value modulo `2^32`, taken in `[-2^31, 2^31)`. -/
def toInt32 (x : Int) : Int := (x + 2147483648) % 4294967296 - 2147483648

/-- Conversion to `DWORD` (`static_cast<DWORD>`): the value modulo `2^32`. -/
def toDWORD (x : Int) : Int := x % 4294967296

/-! ## Variant B: timerfd, epoll and a polling thread (`__linux__`) -/

namespace Linux

/-- The type `struct timespec`. -/
structure timespec where
  tv_sec : Int
  tv_nsec : Int
  deriving DecidableEq, Repr

/-- The type `struct itimerspec`. -/
structure itimerspec where
  it_interval : timespec
  it_value : timespec
  deriving DecidableEq, Repr

/-- The all-zero `timespec` (what `memset` leaves). -/
def timespec.zero : timespec := ⟨0, 0⟩

/-- Structure `Timer::TimerImpl` (Timer.cpp lines 21-26).  Of the `std::thread` only
`joinable()` is kept: `poller = true` iff a worker thread is attached. -/
structure TimerImpl where
  timerfd : Int
  epollfd : Int
  poller : Bool
  deriving DecidableEq, Repr

/-- The part of the kernel the timer talks to.
* `openFds`: the descriptors that are open in the process;
* `setting`: the current setting of the timer descriptor (`none`: never armed);
* `expirations`: expirations of the timer descriptor that were not read yet;
* `interest`: the descriptors registered with the epoll instance;
* `badClose`: how many times `close` was called on a descriptor that was not open. -/
structure Kernel where
  openFds : List Int
  setting : Option itimerspec
  expirations : Nat
  interest : List Int
  badClose : Nat
  deriving DecidableEq, Repr

/-- The object, the kernel and the log of callback invocations (oldest first). -/
structure World where
  timer : Timer TimerImpl
  kernel : Kernel
  invoked : List Nat
  deriving DecidableEq, Repr

/-- What a member function that can throw leaves behind. -/
structure Outcome where
  world : World
  exit : Exit
  deriving DecidableEq, Repr

/-- The lowest descriptor number that is not open (what the kernel hands out). -/
def lowestFree (fds : List Int) : Int :=
  match (List.range (fds.length + 1)).find? (fun (n : Nat) => decide (Int.ofNat n ∉ fds)) with
  | some n => Int.ofNat n
  | none => Int.ofNat fds.length

/-- System call `timerfd_create(CLOCK_MONOTONIC, TFD_NONBLOCK)`: `-1` when the system
refuses (`fails`), otherwise a new, disarmed timer descriptor. -/
def timerfd_create (k : Kernel) (fails : Bool) : Kernel × Int :=
  if fails then (k, -1)
  else
    let fd := lowestFree k.openFds
    ({ k with openFds := fd :: k.openFds, setting := none, expirations := 0 }, fd)

/-- System call `epoll_create(size)`: `-1` when the system refuses, otherwise a new epoll
descriptor with an empty interest list. -/
def epoll_create (k : Kernel) (fails : Bool) : Kernel × Int :=
  if fails then (k, -1)
  else
    let fd := lowestFree k.openFds
    ({ k with openFds := fd :: k.openFds, interest := [] }, fd)

/-- System call `epoll_ctl(epfd, EPOLL_CTL_ADD, fd, &event)`: `-1` when the system refuses
or one of the descriptors is not open, otherwise `fd` joins the interest list. -/
def epoll_ctl_add (k : Kernel) (epfd fd : Int) (fails : Bool) : Kernel × Int :=
  if fails || !(decide (epfd ∈ k.openFds)) || !(decide (fd ∈ k.openFds)) then (k, -1)
  else ({ k with interest := fd :: k.interest }, 0)

/-- System call `close(fd)`.  On an open descriptor it is removed (also from the interest
list); on a descriptor that is not open the call fails with `EBADF`, which is counted. -/
def close (k : Kernel) (fd : Int) : Kernel :=
  if fd ∈ k.openFds then
    { k with openFds := k.openFds.filter (fun x => decide (x ≠ fd)),
             interest := k.interest.filter (fun x => decide (x ≠ fd)) }
  else { k with badClose := k.badClose + 1 }

/-- System call `timerfd_settime(fd, 0, &new_value, nullptr)`: `-1` when `fd` is not open
(`EBADF`) or the system rejects the request (`accept = false`); otherwise the timer takes
the new setting, pending expirations are dropped, and `0` is returned. -/
def timerfd_settime (k : Kernel) (fd : Int) (new_value : itimerspec) (accept : Bool) :
    Kernel × Int :=
  if fd ∈ k.openFds ∧ accept = true then
    ({ k with setting := some new_value, expirations := 0 }, 0)
  else (k, -1)

/-- System call `epoll_wait(epfd, events, EPOLL_EVENT_SIZE, 1)`: `-1` when `epfd` is not
open or the wait is interrupted (`interrupted`), `1` when the registered timer descriptor
has unread expirations, `0` on timeout. -/
def epoll_wait (k : Kernel) (epfd : Int) (interrupted : Bool) : Int :=
  if epfd ∉ k.openFds ∨ interrupted = true then -1
  else if k.interest ≠ [] ∧ 0 < k.expirations then 1
  else 0

/-- System call `read(fd, &s, sizeof(size_t))` on the non-blocking timer descriptor: `-1`
when `fd` is not open or nothing expired (`EAGAIN`), otherwise the count is consumed and
`8` is returned. -/
def read (k : Kernel) (fd : Int) : Kernel × Int :=
  if fd ∈ k.openFds ∧ 0 < k.expirations then ({ k with expirations := 0 }, 8)
  else (k, -1)

/-- The environment: the armed timer descriptor expires once.  A timer whose `it_value` is
zero is disarmed; a one-shot timer (`it_interval` zero) is disarmed by its expiration. -/
def expire (k : Kernel) : Kernel :=
  match k.setting with
  | none => k
  | some s =>
    if s.it_value = timespec.zero then k
    else if s.it_interval = timespec.zero then
      { k with expirations := k.expirations + 1,
               setting := some { s with it_value := timespec.zero } }
    else { k with expirations := k.expirations + 1 }

/-- Failure of the three acquisition steps of `InitializeImpl`, chosen by the system. -/
structure InitFaults where
  timerfd_create : Bool
  epoll_create : Bool
  epoll_ctl : Bool
  deriving DecidableEq, Repr

/-- Indeterminate contents of the storage the constructor does not initialise:
`isRunning` (no initialiser in Timer.h, no assignment in `Timer::Timer`) and the two
`int` members of `new Timer::TimerImpl`. -/
structure Indeterminate where
  isRunning : Bool
  timerfd : Int
  epollfd : Int
  deriving DecidableEq, Repr

/-- Constant `EPOLL_EVENT_SIZE` (Timer.cpp line 144). -/
def EPOLL_EVENT_SIZE : Int := 1

/-- Member `Timer::InitializeImpl` (Timer.cpp lines 146-172). -/
def InitializeImpl (w : World) (f : InitFaults) : World × Bool :=
  let r1 := timerfd_create w.kernel f.timerfd_create
  let w1 : World :=
    { w with kernel := r1.1,
             timer := { w.timer with impl := { w.timer.impl with timerfd := r1.2 } } }
  if w1.timer.impl.timerfd = -1 then (w1, false)
  else
    let r2 := epoll_create w1.kernel f.epoll_create
    let w2 : World :=
      { w1 with kernel := r2.1,
                timer := { w1.timer with impl := { w1.timer.impl with epollfd := r2.2 } } }
    if w2.timer.impl.epollfd = -1 then
      ({ w2 with kernel := close w2.kernel w2.timer.impl.timerfd }, false)
    else
      let r3 := epoll_ctl_add w2.kernel w2.timer.impl.epollfd w2.timer.impl.timerfd f.epoll_ctl
      if r3.2 = -1 then
        ({ w2 with kernel := close (close r3.1 w2.timer.impl.epollfd) w2.timer.impl.timerfd },
          false)
      else ({ w2 with kernel := r3.1 }, true)

/-- Member `Timer::Timer` (Timer.cpp lines 33-42) run on kernel `k` with invocation log `log`.
`isRunning` is not assigned: it keeps the indeterminate value `u.isRunning`. -/
def Construct (k : Kernel) (log : List Nat) (u : Indeterminate) (timer_period : Interval)
    (timer_callback : TimerCallback) (periodic : Bool) (f : InitFaults) : Outcome :=
  let w0 : World :=
    { timer :=
        { period := timer_period, callback := timer_callback, isPeriodic := periodic,
          isRunning := u.isRunning,
          impl := { timerfd := u.timerfd, epollfd := u.epollfd, poller := false } },
      kernel := k, invoked := log }
  let r := InitializeImpl w0 f
  if r.2 = false then ⟨r.1, Exit.runtime_error⟩ else ⟨r.1, Exit.returned⟩

/-- The `itimerspec` local `interval` that `Timer::Start` builds (Timer.cpp lines 183-196). -/
def Start_interval (period : Interval) (isPeriodic : Bool) : itimerspec :=
  let timeval := period
  let it_value : timespec :=
    { tv_sec := toInt32 (Int.tdiv (toInt32 timeval) 1000),
      tv_nsec := toInt32 (1000000 * Int.tmod (toInt32 timeval) 1000) }
  if isPeriodic then { it_interval := it_value, it_value := it_value }
  else { it_interval := timespec.zero, it_value := it_value }

/-- One execution of the body of the `while` loop of the poller lambda
(Timer.cpp lines 214-221). -/
def pollerBody (w : World) (interrupted : Bool) : World :=
  let num__events := epoll_wait w.kernel w.timer.impl.epollfd interrupted
  if num__events = -1 then w
  else
    let r := read w.kernel w.timer.impl.timerfd
    if r.2 ≠ -1 ∧ (GetCallback w.timer).isSome = true then
      { w with kernel := r.1, invoked := invoke (GetCallback w.timer) w.invoked }
    else { w with kernel := r.1 }

/-- One step of the worker thread (Timer.cpp lines 212-222): there is a worker only when
`poller` is attached, and it enters the body only when `isRunning` holds. -/
def pollerStep (w : World) (interrupted : Bool) : World :=
  if w.timer.impl.poller = true ∧ w.timer.isRunning = true then pollerBody w interrupted
  else w

/-- Call of `std::thread::join` on a joinable `poller`, called after `isRunning` was cleared: the
worker finishes the loop body it is in, if any (`inflight = some interrupted`), finds
`isRunning` false and ends; the thread object is no longer joinable. -/
def join (w : World) (inflight : Option Bool) : World :=
  let w1 :=
    match inflight with
    | none => w
    | some interrupted => pollerBody w interrupted
  { w1 with timer := { w1.timer with impl := { w1.timer.impl with poller := false } } }

/-- Member `Timer::Start` (Timer.cpp lines 181-224).  Move-assigning the new thread to a
`poller` that is still joinable calls `std::terminate`. -/
def Start (w : World) (accept : Bool) : Outcome :=
  let interval := Start_interval (GetPeriod w.timer) w.timer.isPeriodic
  let r := timerfd_settime w.kernel w.timer.impl.timerfd interval accept
  if r.2 = -1 then
    ⟨{ w with kernel := close (close r.1 w.timer.impl.timerfd) w.timer.impl.epollfd },
      Exit.runtime_error⟩
  else
    let w1 : World := { w with kernel := r.1, timer := { w.timer with isRunning := true } }
    if w1.timer.impl.poller = true then ⟨w1, Exit.terminated⟩
    else
      ⟨{ w1 with timer := { w1.timer with impl := { w1.timer.impl with poller := true } } },
        Exit.returned⟩

/-- Member `Timer::Stop` (Timer.cpp lines 226-231). -/
def Stop (w : World) (inflight : Option Bool) : World :=
  let w1 : World := { w with timer := { w.timer with isRunning := false } }
  if w1.timer.impl.poller = true then join w1 inflight else w1

/-- Member `Timer::CleanupImpl` (Timer.cpp lines 174-179).  `poller.join()` on a thread that is
not joinable throws `std::system_error`; the only caller is the destructor, which is
`noexcept`, so the exception ends in `std::terminate`. -/
def CleanupImpl (w : World) (inflight : Option Bool) : Outcome :=
  let k1 := close w.kernel w.timer.impl.timerfd
  let k2 := close k1 w.timer.impl.epollfd
  let w2 : World := { w with kernel := k2 }
  if w2.timer.impl.poller = true then ⟨join w2 inflight, Exit.returned⟩
  else ⟨w2, Exit.terminated⟩

/-- Member `Timer::~Timer` (Timer.cpp lines 44-52); `impl` is never null after construction. -/
def Destroy (w : World) (inflight : Option Bool) : Outcome :=
  let w1 : World := { w with timer := { w.timer with isRunning := false } }
  CleanupImpl w1 inflight

/-- The destructor completed without error: it returned, and no `close` hit a
descriptor that was not open. -/
def Destroy_safe (w : World) (inflight : Option Bool) : Prop :=
  (Destroy w inflight).exit = Exit.returned ∧
  (Destroy w inflight).world.kernel.badClose = w.kernel.badClose

instance (w : World) (inflight : Option Bool) : Decidable (Destroy_safe w inflight) := by
  unfold Destroy_safe; infer_instance

/-- The steps of the system: calls of the owner, and moves of the environment. -/
inductive Op where
  | Start (accept : Bool)
  | Stop (inflight : Option Bool)
  | SetPeriod (new_period : Interval)
  | SetCallback (new_callback : TimerCallback)
  | SetPeriodic (periodic : Bool)
  /-- the timer descriptor expires -/
  | expire
  /-- the worker thread runs one iteration of its loop -/
  | poll (interrupted : Bool)
  deriving DecidableEq, Repr

/-- Whether the step is a call of `Start`. -/
def Op.isStart : Op → Bool
  | Op.Start _ => true
  | _ => false

/-- One step; `none` when the process was terminated.  A `std::runtime_error` thrown by
`Start` is caught by the caller, which goes on with the object. -/
def step (w : World) : Op → Option World
  | Op.Start accept =>
    let o := Start w accept
    if o.exit = Exit.terminated then none else some o.world
  | Op.Stop inflight => some (Stop w inflight)
  | Op.SetPeriod p => some { w with timer := SetPeriod w.timer p }
  | Op.SetCallback c => some { w with timer := SetCallback w.timer c }
  | Op.SetPeriodic b => some { w with timer := SetPeriodic w.timer b }
  | Op.expire => some { w with kernel := expire w.kernel }
  | Op.poll interrupted => some (pollerStep w interrupted)

/-- A sequence of steps. -/
def run (w : World) : List Op → Option World
  | [] => some w
  | op :: ops =>
    match step w op with
    | none => none
    | some w1 => run w1 ops

/-- A process with the three standard descriptors open and nothing else. -/
def Kernel.initial : Kernel :=
  { openFds := [0, 1, 2], setting := none, expirations := 0, interest := [], badClose := 0 }

/-- No acquisition step fails. -/
def InitFaults.none : InitFaults := ⟨false, false, false⟩

/-- A running timer: `isRunning` is set, the worker is attached, and the timer descriptor
and the epoll descriptor are two distinct open descriptors. -/
def Running (w : World) : Prop :=
  w.timer.isRunning = true ∧ w.timer.impl.poller = true ∧
  w.timer.impl.timerfd ∈ w.kernel.openFds ∧ w.timer.impl.epollfd ∈ w.kernel.openFds ∧
  w.timer.impl.timerfd ≠ w.timer.impl.epollfd

instance (w : World) : Decidable (Running w) := by
  unfold Running; infer_instance

/-- The call sequence `Stop(); SetPeriod(p); SetCallback(c); SetPeriodic(b); Start()`. -/
def restart (w : World) (inflight : Option Bool) (p : Interval) (c : TimerCallback)
    (b : Bool) (accept : Bool) : Outcome :=
  let w1 := Stop w inflight
  Start { w1 with timer := SetPeriodic (SetCallback (SetPeriod w1.timer p) c) b } accept

/-- The world with `n` unread expirations of the timer descriptor. -/
def withExpirations (w : World) (n : Nat) : World :=
  { w with kernel := { w.kernel with expirations := n } }

end Linux

/-! ## Variant A: timer queue and timer-queue timer (`_WIN32`) -/

namespace Win32

/-- A Win32 `HANDLE`: the null handle, `INVALID_HANDLE_VALUE`, or the handle of a kernel
object, identified by the number of the object. -/
inductive HANDLE where
  | NULL
  | INVALID_HANDLE_VALUE
  | object (id : Nat)
  deriving DecidableEq, Repr

/-- Structure `Timer::TimerImpl` (Timer.cpp lines 8-12). -/
structure TimerImpl where
  timerQueue : HANDLE
  timerQueueTimer : HANDLE
  deriving DecidableEq, Repr

/-- A timer-queue timer as registered by `CreateTimerQueueTimer`: its handle, the queue
it belongs to (`NULL`: the default timer queue), and the `DueTime`, `Period` and `Flags`
arguments of the call.  Its callback is `WinTimerCallback` with the parameter `this`. -/
structure QueueTimer where
  handle : HANDLE
  queue : HANDLE
  dueTime : Int
  period : Int
  flags : Int
  deriving DecidableEq, Repr

/-- The part of the system the timer talks to: the live timer queues, the live
timer-queue timers, the number of the next object, and the number of delete calls that
named no live object. -/
structure System where
  queues : List HANDLE
  timers : List QueueTimer
  nextId : Nat
  badDelete : Nat
  deriving DecidableEq, Repr

/-- The object, the system and the log of callback invocations (oldest first). -/
structure World where
  timer : Timer TimerImpl
  system : System
  invoked : List Nat
  deriving DecidableEq, Repr

/-- What a member function that can throw leaves behind. -/
structure Outcome where
  world : World
  exit : Exit
  deriving DecidableEq, Repr

/-- System call `CreateTimerQueue()`: a handle to a new timer queue; `NULL` when the call fails (the
failure value the Win32 API documents for this function). -/
def CreateTimerQueue (s : System) (fails : Bool) : System × HANDLE :=
  if fails then (s, HANDLE.NULL)
  else
    ({ s with queues := HANDLE.object s.nextId :: s.queues, nextId := s.nextId + 1 },
      HANDLE.object s.nextId)

/-- System call
`CreateTimerQueueTimer(&h, TimerQueue, &WinTimerCallback, this, DueTime, Period, Flags)`.
The call fails when the system refuses (`fails`) or `TimerQueue` is neither `NULL` (the
default timer queue) nor a live queue; then no handle is stored (`none`).  Otherwise
a new timer is registered and its handle is stored. -/
def CreateTimerQueueTimer (s : System) (TimerQueue : HANDLE) (DueTime Period Flags : Int)
    (fails : Bool) : System × Option HANDLE :=
  if fails = false ∧ (TimerQueue = HANDLE.NULL ∨ TimerQueue ∈ s.queues) then
    ({ s with
        timers := s.timers ++
          [{ handle := HANDLE.object s.nextId, queue := TimerQueue, dueTime := DueTime,
             period := Period, flags := Flags }],
        nextId := s.nextId + 1 },
      some (HANDLE.object s.nextId))
  else (s, none)

/-- Whether `Timer` is a live timer of the queue `TimerQueue`. -/
def isTimerOf (s : System) (TimerQueue Timer : HANDLE) : Bool :=
  s.timers.any (fun r => decide (r.handle = Timer ∧ r.queue = TimerQueue))

/-- System call `DeleteTimerQueueTimer(TimerQueue, Timer, INVALID_HANDLE_VALUE)`: the timer
is removed from the queue; a call that names no live timer of the queue fails and is counted. -/
def DeleteTimerQueueTimer (s : System) (TimerQueue Timer : HANDLE) : System :=
  if isTimerOf s TimerQueue Timer then
    { s with timers :=
        s.timers.filter (fun r => !(decide (r.handle = Timer ∧ r.queue = TimerQueue))) }
  else { s with badDelete := s.badDelete + 1 }

/-- System call `DeleteTimerQueueEx(TimerQueue, INVALID_HANDLE_VALUE)`: the queue is
deleted together with all its timers; a call that names no live queue fails and is counted. -/
def DeleteTimerQueueEx (s : System) (TimerQueue : HANDLE) : System :=
  if TimerQueue ∈ s.queues then
    { s with queues := s.queues.filter (fun q => decide (q ≠ TimerQueue)),
             timers := s.timers.filter (fun r => decide (r.queue ≠ TimerQueue)) }
  else { s with badDelete := s.badDelete + 1 }

/-- Function `WinTimerCallback` (Timer.cpp lines 91-99); `lpParameter` is `none` for a null
pointer.  The result is the invocation log after the call. -/
def WinTimerCallback (lpParameter : Option (Timer TimerImpl)) (invoked : List Nat) :
    List Nat :=
  match lpParameter with
  | none => invoked
  | some t => if (GetCallback t).isSome = true then invoke (GetCallback t) invoked else invoked

/-- The environment: a live timer-queue timer expires and the system runs its callback
`WinTimerCallback(this, TRUE)` on a pool thread.  Without a live timer nothing runs. -/
def fire (w : World) : World :=
  if w.system.timers ≠ [] then { w with invoked := WinTimerCallback (some w.timer) w.invoked }
  else w

/-- Indeterminate contents of the storage the constructor does not initialise:
`isRunning` and the two handles of `new Timer::TimerImpl`. -/
structure Indeterminate where
  isRunning : Bool
  timerQueue : HANDLE
  timerQueueTimer : HANDLE
  deriving DecidableEq, Repr

/-- Member `Timer::InitializeImpl` (Timer.cpp lines 101-105). -/
def InitializeImpl (w : World) (fails : Bool) : World × Bool :=
  let r := CreateTimerQueue w.system fails
  let w1 : World :=
    { w with system := r.1,
             timer := { w.timer with impl := { w.timer.impl with timerQueue := r.2 } } }
  (w1, decide (w1.timer.impl.timerQueue ≠ HANDLE.INVALID_HANDLE_VALUE))

/-- Member `Timer::Timer` (Timer.cpp lines 33-42) run on system `s` with invocation log `log`.
`isRunning` and `impl->timerQueueTimer` keep their indeterminate values. -/
def Construct (s : System) (log : List Nat) (u : Indeterminate) (timer_period : Interval)
    (timer_callback : TimerCallback) (periodic : Bool) (fails : Bool) : Outcome :=
  let w0 : World :=
    { timer :=
        { period := timer_period, callback := timer_callback, isPeriodic := periodic,
          isRunning := u.isRunning,
          impl := { timerQueue := u.timerQueue, timerQueueTimer := u.timerQueueTimer } },
      system := s, invoked := log }
  let r := InitializeImpl w0 fails
  if r.2 = false then ⟨r.1, Exit.runtime_error⟩ else ⟨r.1, Exit.returned⟩

/-- Member `Timer::CleanupImpl` (Timer.cpp lines 107-114).  The completion event
`INVALID_HANDLE_VALUE` makes the delete call wait for a callback of the timer that is
running (`inflight`) before it returns. -/
def CleanupImpl (w : World) (inflight : Bool) : World :=
  let w1 : World :=
    if w.timer.impl.timerQueueTimer ≠ HANDLE.INVALID_HANDLE_VALUE then
      let w0 : World :=
        if inflight = true ∧
            isTimerOf w.system w.timer.impl.timerQueue w.timer.impl.timerQueueTimer = true then
          { w with invoked := WinTimerCallback (some w.timer) w.invoked }
        else w
      { w0 with system :=
          DeleteTimerQueueTimer w0.system w0.timer.impl.timerQueue w0.timer.impl.timerQueueTimer }
    else w
  if w1.timer.impl.timerQueue ≠ HANDLE.INVALID_HANDLE_VALUE then
    { w1 with system := DeleteTimerQueueEx w1.system w1.timer.impl.timerQueue }
  else w1

/-- The `DueTime`, `Period` and `Flags` arguments `Timer::Start` passes to
`CreateTimerQueueTimer` (Timer.cpp lines 118-128). -/
def Start_arguments (period : Interval) (isPeriodic : Bool) : Int × Int × Int :=
  let period_ : Int := if isPeriodic then toDWORD period else 0
  (0, period_, 0)

/-- Member `Timer::Start` (Timer.cpp lines 116-134). -/
def Start (w : World) (fails : Bool) : Outcome :=
  let a := Start_arguments (GetPeriod w.timer) w.timer.isPeriodic
  let r := CreateTimerQueueTimer w.system w.timer.impl.timerQueue a.1 a.2.1 a.2.2 fails
  match r.2 with
  | none => ⟨w, Exit.runtime_error⟩
  | some h =>
    ⟨{ w with system := r.1,
              timer := { w.timer with isRunning := true,
                                      impl := { w.timer.impl with timerQueueTimer := h } } },
      Exit.returned⟩

/-- Member `Timer::Stop` (Timer.cpp lines 136-141); the result of `InitializeImpl` is dropped. -/
def Stop (w : World) (inflight : Bool) (fails : Bool) : World :=
  let w1 : World := { w with timer := { w.timer with isRunning := false } }
  let w2 := CleanupImpl w1 inflight
  (InitializeImpl w2 fails).1

/-- Member `Timer::~Timer` (Timer.cpp lines 44-52); `impl` is never null after construction. -/
def Destroy (w : World) (inflight : Bool) : World :=
  let w1 : World := { w with timer := { w.timer with isRunning := false } }
  CleanupImpl w1 inflight

/-- The steps of the system: calls of the owner, and moves of the environment. -/
inductive Op where
  | Start (fails : Bool)
  | Stop (inflight : Bool) (fails : Bool)
  | SetPeriod (new_period : Interval)
  | SetCallback (new_callback : TimerCallback)
  | SetPeriodic (periodic : Bool)
  /-- a live timer-queue timer expires and its callback runs -/
  | fire
  deriving DecidableEq, Repr

/-- Whether the step is a call of `Start`. -/
def Op.isStart : Op → Bool
  | Op.Start _ => true
  | _ => false

/-- One step.  A `std::runtime_error` thrown by `Start` is caught by the caller, which
goes on with the object. -/
def step (w : World) : Op → World
  | Op.Start fails => (Start w fails).world
  | Op.Stop inflight fails => Stop w inflight fails
  | Op.SetPeriod p => { w with timer := SetPeriod w.timer p }
  | Op.SetCallback c => { w with timer := SetCallback w.timer c }
  | Op.SetPeriodic b => { w with timer := SetPeriodic w.timer b }
  | Op.fire => fire w

/-- A sequence of steps. -/
def run (w : World) : List Op → World
  | [] => w
  | op :: ops => run (step w op) ops

/-- A system without timer queues. -/
def System.initial : System := { queues := [], timers := [], nextId := 1, badDelete := 0 }

/-- Exclusive ownership: every live timer-queue timer belongs to the queue of this
object, and it is either the one `impl` names or its queue is a live queue of the
object (so that deleting the queue deletes it). -/
def Exclusive (w : World) : Prop :=
  ∀ r ∈ w.system.timers,
    r.queue = w.timer.impl.timerQueue ∧
    ((r.handle = w.timer.impl.timerQueueTimer ∧
        w.timer.impl.timerQueueTimer ≠ HANDLE.INVALID_HANDLE_VALUE) ∨
      (w.timer.impl.timerQueue ∈ w.system.queues ∧
        w.timer.impl.timerQueue ≠ HANDLE.INVALID_HANDLE_VALUE))

instance (w : World) : Decidable (Exclusive w) := by
  unfold Exclusive; infer_instance

/-- A running timer: `isRunning` is set and the only live timer-queue timer is the one
`impl` names, in the queue of the object. -/
def Running (w : World) : Prop :=
  w.timer.isRunning = true ∧
  ∃ r, w.system.timers = [r] ∧ r.handle = w.timer.impl.timerQueueTimer ∧
    r.queue = w.timer.impl.timerQueue ∧
    w.timer.impl.timerQueueTimer ≠ HANDLE.INVALID_HANDLE_VALUE

/-- The caller contract of `Start()`: it is called only while no registration of the
object is live (never twice without a `Stop()` in between). -/
def respectsContract (w : World) : List Op → Prop
  | [] => True
  | op :: ops => (op.isStart = true → w.system.timers = []) ∧ respectsContract (step w op) ops

/-- The call sequence `Stop(); SetPeriod(p); SetCallback(c); SetPeriodic(b); Start()`. -/
def restart (w : World) (inflight createFails : Bool) (p : Interval) (c : TimerCallback)
    (b : Bool) (fails : Bool) : Outcome :=
  let w1 := Stop w inflight createFails
  Start { w1 with timer := SetPeriodic (SetCallback (SetPeriod w1.timer p) c) b } fails

end Win32

/-! ## Concrete worlds used in the examples -/

/-- Variant B: the timer `Linux.fresh` (defined below) after a successful `Start()`. -/
def Linux.running : Linux.World :=
  (Linux.Start
    (Linux.Construct Linux.Kernel.initial [] ⟨false, 0, 0⟩ 50 (some 1) false
      Linux.InitFaults.none).world true).world

/-- Variant A: the timer `Win32.fresh` (defined below) after a successful `Start()`. -/
def Win32.running : Win32.World :=
  (Win32.Start
    (Win32.Construct Win32.System.initial [] ⟨false, Win32.HANDLE.NULL,
      Win32.HANDLE.INVALID_HANDLE_VALUE⟩ 50 (some 1) false false).world false).world

/-- Variant B: a freshly constructed timer (period 50 ms, callback 1, one-shot) in a fresh
process; the indeterminate `isRunning` happens to be `false`. -/
def Linux.fresh : Linux.World :=
  (Linux.Construct Linux.Kernel.initial [] ⟨false, 0, 0⟩ 50 (some 1) false
    Linux.InitFaults.none).world

/-- Variant A: a freshly constructed timer (period 50 ms, callback 1, one-shot); the
indeterminate `isRunning` happens to be `false` and the indeterminate
`timerQueueTimer` happens to be `INVALID_HANDLE_VALUE`. -/
def Win32.fresh : Win32.World :=
  (Win32.Construct Win32.System.initial [] ⟨false, Win32.HANDLE.NULL,
    Win32.HANDLE.INVALID_HANDLE_VALUE⟩ 50 (some 1) false false).world

/-! ## Arithmetic of the period conversion -/

theorem toInt32_of_range (x : Int) (h0 : -2147483648 ≤ x) (h1 : x < 2147483648) :
    toInt32 x = x := by
  unfold toInt32
  omega

theorem Start_interval_it_value (P : Int) (b : Bool) (h0 : 0 ≤ P) (h1 : P < 2147483648) :
    (Linux.Start_interval P b).it_value =
      { tv_sec := P / 1000, tv_nsec := (P % 1000) * 1000000 } := by
  have hc : toInt32 P = P := toInt32_of_range P (by omega) h1
  have hd : Int.tdiv P 1000 = P / 1000 := Int.tdiv_eq_ediv h0 (by norm_num)
  have hm : Int.tmod P 1000 = P % 1000 := Int.tmod_eq_emod h0 (by norm_num)
  have hq : toInt32 (P / 1000) = P / 1000 := toInt32_of_range _ (by omega) (by omega)
  have hn : toInt32 (1000000 * (P % 1000)) = (P % 1000) * 1000000 := by
    rw [toInt32_of_range _ (by omega) (by omega), mul_comm]
  cases b <;> simp [Linux.Start_interval, hc, hd, hm, hq, hn]

/-! ## Variant B: descriptors -/

theorem Linux.lowestFree_not_mem (fds : List Int) : Linux.lowestFree fds ∉ fds := by
  unfold Linux.lowestFree
  cases hf : (List.range (fds.length + 1)).find?
      (fun (n : Nat) => decide (Int.ofNat n ∉ fds)) with
  | some n =>
    have h := List.find?_some hf
    simpa using h
  | none =>
    exfalso
    have hall : ∀ n ∈ List.range (fds.length + 1),
        ¬ (fun n : Nat => decide (Int.ofNat n ∉ fds)) n = true := List.find?_eq_none.mp hf
    have hsub : ∀ x ∈ (List.range (fds.length + 1)).map Int.ofNat, x ∈ fds := by
      intro x hx
      rw [List.mem_map] at hx
      obtain ⟨n, hn, rfl⟩ := hx
      have := hall n hn
      simpa using this
    have hnd : ((List.range (fds.length + 1)).map Int.ofNat).Nodup :=
      (List.nodup_range _).map (fun a b hab => Int.ofNat.inj hab)
    have hle := (hnd.subperm hsub).length_le
    simp at hle

theorem Linux.close_openFds_cons (k : Linux.Kernel) (fd : Int) (fds : List Int)
    (h : fd ∉ fds) (hk : k.openFds = fd :: fds) :
    (Linux.close k fd).openFds = fds ∧ (Linux.close k fd).badClose = k.badClose := by
  unfold Linux.close
  have hmem : fd ∈ k.openFds := by rw [hk]; exact List.mem_cons_self _ _
  rw [if_pos hmem]
  refine ⟨?_, rfl⟩
  simp only [hk]
  rw [List.filter_cons_of_neg (by simp)]
  rw [List.filter_eq_self]
  intro x hx
  have : x ≠ fd := fun e => h (e ▸ hx)
  simpa using this

theorem Linux.not_mem_close (k : Linux.Kernel) (fd : Int) :
    fd ∉ (Linux.close k fd).openFds := by
  unfold Linux.close
  split
  · simp [List.mem_filter]
  · assumption

theorem Linux.not_mem_close_of_not_mem (k : Linux.Kernel) (fd x : Int)
    (h : x ∉ k.openFds) : x ∉ (Linux.close k fd).openFds := by
  unfold Linux.close
  split
  · intro hx
    exact h (List.mem_filter.mp hx).1
  · exact h

theorem Linux.lowestFree_nonneg (fds : List Int) : 0 ≤ Linux.lowestFree fds := by
  unfold Linux.lowestFree
  split <;> exact Int.ofNat_nonneg _

theorem Linux.lowestFree_ne_neg_one (fds : List Int) : Linux.lowestFree fds ≠ -1 := by
  have := Linux.lowestFree_nonneg fds
  omega

/-- Function `InitializeImpl` reports failure exactly when one of its three acquisition steps
fails. -/
theorem Linux.InitializeImpl_false_iff (w : Linux.World) (f : Linux.InitFaults) :
    (Linux.InitializeImpl w f).2 = false ↔
      (f.timerfd_create = true ∨ f.epoll_create = true ∨ f.epoll_ctl = true) := by
  obtain ⟨a, b, c⟩ := f
  have h1 := Linux.lowestFree_ne_neg_one w.kernel.openFds
  have h2 := Linux.lowestFree_ne_neg_one (Linux.lowestFree w.kernel.openFds :: w.kernel.openFds)
  cases a <;> cases b <;> cases c <;>
    simp [Linux.InitializeImpl, Linux.timerfd_create, Linux.epoll_create,
      Linux.epoll_ctl_add, h1, h2]

/-- When `InitializeImpl` fails, the descriptors that are open are those that were open
before the call, and no `close` hit a descriptor that was not open. -/
theorem Linux.InitializeImpl_no_leak (w : Linux.World) (f : Linux.InitFaults)
    (h : (Linux.InitializeImpl w f).2 = false) :
    (Linux.InitializeImpl w f).1.kernel.openFds = w.kernel.openFds ∧
    (Linux.InitializeImpl w f).1.kernel.badClose = w.kernel.badClose := by
  obtain ⟨a, b, c⟩ := f
  have h1 := Linux.lowestFree_ne_neg_one w.kernel.openFds
  have h2 := Linux.lowestFree_ne_neg_one (Linux.lowestFree w.kernel.openFds :: w.kernel.openFds)
  have n1 := Linux.lowestFree_not_mem w.kernel.openFds
  have n2 := Linux.lowestFree_not_mem (Linux.lowestFree w.kernel.openFds :: w.kernel.openFds)
  cases a
  · cases b
    · cases c
      · simp [Linux.InitializeImpl, Linux.timerfd_create, Linux.epoll_create,
          Linux.epoll_ctl_add, h1, h2] at h
      · simp only [Linux.InitializeImpl, Linux.timerfd_create, Linux.epoll_create,
          Linux.epoll_ctl_add]
        simp [h1, h2]
        have c1 := Linux.close_openFds_cons
          { openFds := Linux.lowestFree (Linux.lowestFree w.kernel.openFds :: w.kernel.openFds) ::
              Linux.lowestFree w.kernel.openFds :: w.kernel.openFds,
            setting := none, expirations := 0, interest := [], badClose := w.kernel.badClose }
          _ _ n2 rfl
        have c2 := Linux.close_openFds_cons
          (Linux.close
            { openFds := Linux.lowestFree (Linux.lowestFree w.kernel.openFds :: w.kernel.openFds) ::
                Linux.lowestFree w.kernel.openFds :: w.kernel.openFds,
              setting := none, expirations := 0, interest := [], badClose := w.kernel.badClose }
            (Linux.lowestFree (Linux.lowestFree w.kernel.openFds :: w.kernel.openFds)))
          _ _ n1 c1.1
        exact ⟨c2.1, by rw [c2.2, c1.2]⟩
    · have c1 := Linux.close_openFds_cons
        { openFds := Linux.lowestFree w.kernel.openFds :: w.kernel.openFds,
          setting := none, expirations := 0, interest := w.kernel.interest,
          badClose := w.kernel.badClose } _ _ n1 rfl
      simpa [Linux.InitializeImpl, Linux.timerfd_create, Linux.epoll_create, h1] using c1
  · simp [Linux.InitializeImpl, Linux.timerfd_create]

/-! ## Variant B: the destructor -/

/-- The destructor returns exactly when a worker is attached; otherwise `join` on the
thread that is not joinable ends the process. -/
theorem Linux.Destroy_exit (w : Linux.World) (inflight : Option Bool) :
    (Linux.Destroy w inflight).exit =
      if w.timer.impl.poller = true then Exit.returned else Exit.terminated := by
  unfold Linux.Destroy Linux.CleanupImpl
  by_cases h : w.timer.impl.poller = true <;> simp [h]

/-- Destroying a running timer is safe. -/
theorem Linux.Destroy_safe_of_Running (w : Linux.World) (inflight : Option Bool)
    (h : Linux.Running w) : Linux.Destroy_safe w inflight := by
  obtain ⟨_, hp, ht, he, hne⟩ := h
  have he1 : w.timer.impl.epollfd ∈ (Linux.close w.kernel w.timer.impl.timerfd).openFds := by
    unfold Linux.close
    rw [if_pos ht]
    simp only [List.mem_filter]
    exact ⟨he, by simpa using fun e => hne e.symm⟩
  have hb : (Linux.close (Linux.close w.kernel w.timer.impl.timerfd)
      w.timer.impl.epollfd).badClose = w.kernel.badClose := by
    have h1 : (Linux.close w.kernel w.timer.impl.timerfd).badClose = w.kernel.badClose := by
      unfold Linux.close; rw [if_pos ht]
    rw [← h1]
    generalize Linux.close w.kernel w.timer.impl.timerfd = k1 at he1 ⊢
    unfold Linux.close; rw [if_pos he1]
  refine ⟨by rw [Linux.Destroy_exit]; simp [hp], ?_⟩
  unfold Linux.Destroy Linux.CleanupImpl
  simp only [hp, if_true]
  unfold Linux.join
  cases inflight with
  | none => simpa using hb
  | some i =>
    simp only [Linux.pollerBody, Linux.epoll_wait, Linux.read, GetCallback]
    split_ifs <;> simpa using hb

/-- C1 (code defect, Variant B).  The destructor is not safe in every state: on a timer
that was never started, on a timer that was started and stopped, and on a timer whose
`Start()` failed, `CleanupImpl` calls `poller.join()` on a thread that is not joinable and
the process is terminated; after a failed `Start()` it also closes the two descriptors a
second time.  (`Stop` guards the same `join` with `joinable()`.) -/
theorem C1_Destroy_terminates_unless_running (inflight : Option Bool) :
    (Linux.Destroy Linux.fresh inflight).exit = Exit.terminated ∧
    ¬ Linux.Destroy_safe Linux.fresh inflight ∧
    (Linux.Destroy (Linux.Stop (Linux.Start Linux.fresh true).world none) inflight).exit =
      Exit.terminated ∧
    (Linux.Destroy (Linux.Start Linux.fresh false).world inflight).exit = Exit.terminated ∧
    (Linux.Destroy (Linux.Start Linux.fresh false).world inflight).world.kernel.badClose =
      (Linux.Start Linux.fresh false).world.kernel.badClose + 2 := by
  have e1 : (Linux.Destroy Linux.fresh inflight).exit = Exit.terminated := by
    rw [Linux.Destroy_exit]; decide
  refine ⟨e1, ?_, ?_, ?_, ?_⟩
  · intro h
    rw [h.1] at e1
    exact absurd e1 (by decide)
  · rw [Linux.Destroy_exit]; decide
  · rw [Linux.Destroy_exit]; decide
  · cases inflight with
    | none => decide
    | some i => cases i <;> decide

/-! ## Construction -/

/-- C2 (code defect, both variants).  `Timer::Timer` never assigns `isRunning`: after a
successful construction `IsRunning()` returns the indeterminate content of the member,
so it can be `true` although `Start()` was never called. -/
theorem C2_IsRunning_after_Construct_indeterminate (k : Linux.Kernel) (log : List Nat)
    (u : Linux.Indeterminate) (p : Interval) (c : TimerCallback) (b : Bool)
    (s : Win32.System) (v : Win32.Indeterminate) :
    (Linux.Construct k log u p c b Linux.InitFaults.none).exit = Exit.returned ∧
    IsRunning (Linux.Construct k log u p c b Linux.InitFaults.none).world.timer = u.isRunning ∧
    IsRunning (Linux.Construct Linux.Kernel.initial [] ⟨true, 0, 0⟩ 50 (some 1) false
      Linux.InitFaults.none).world.timer = true ∧
    (Win32.Construct s log v p c b false).exit = Exit.returned ∧
    IsRunning (Win32.Construct s log v p c b false).world.timer = v.isRunning := by
  have h1 := Linux.lowestFree_ne_neg_one k.openFds
  have h2 := Linux.lowestFree_ne_neg_one (Linux.lowestFree k.openFds :: k.openFds)
  refine ⟨?_, ?_, by decide,
    by simp [Win32.Construct, Win32.InitializeImpl, Win32.CreateTimerQueue],
    by simp [Win32.Construct, Win32.InitializeImpl, Win32.CreateTimerQueue, IsRunning]⟩
  · simp [Linux.Construct, Linux.InitializeImpl, Linux.timerfd_create, Linux.epoll_create,
      Linux.epoll_ctl_add, Linux.InitFaults.none, h1, h2]
  · simp [Linux.Construct, Linux.InitializeImpl, Linux.timerfd_create, Linux.epoll_create,
      Linux.epoll_ctl_add, Linux.InitFaults.none, h1, h2, IsRunning]

/-- C4 (code defect, Variant A).  When `CreateTimerQueue` fails it returns `NULL`;
`InitializeImpl` compares the handle with `INVALID_HANDLE_VALUE`, so it reports success
and the constructor returns normally with a null queue handle; no initialization error
is raised. -/
theorem C4_Construct_misses_CreateTimerQueue_failure (s : Win32.System) (log : List Nat)
    (u : Win32.Indeterminate) (p : Interval) (c : TimerCallback) (b : Bool) :
    (Win32.Construct s log u p c b true).exit = Exit.returned ∧
    (Win32.Construct s log u p c b true).world.timer.impl.timerQueue = Win32.HANDLE.NULL ∧
    (Win32.Construct s log u p c b true).world.system = s := by
  simp [Win32.Construct, Win32.InitializeImpl, Win32.CreateTimerQueue]

/-! ## Arming -/

/-- C9, as stated, fails: at `P = 2^31` ms the conversion to `int` wraps to `-2^31`, and
the armed `it_value` is `(-2147483, -648000000)`. -/
theorem C9_counterexample :
    ¬ (0 ≤ (Linux.Start_interval 2147483648 true).it_value.tv_nsec ∧
       (Linux.Start_interval 2147483648 true).it_value.tv_nsec < 1000000000 ∧
       (Linux.Start_interval 2147483648 true).it_value.tv_sec * 1000000000 +
         (Linux.Start_interval 2147483648 true).it_value.tv_nsec = 2147483648 * 1000000) := by
  decide

/-- C9 (amended).  For every period of `P` milliseconds with `0 ≤ P < 2^31`, the
`itimerspec` that `Start()` arms has `it_value = (P / 1000, (P mod 1000) * 1000000)`, so
`0 ≤ nsec < 10^9` and `sec * 10^9 + nsec = P * 10^6`; `it_interval` equals `it_value`
when `isPeriodic` is true and is `(0, 0)` when it is false. -/
theorem C9_period_conversion (P : Int) (b : Bool) (h0 : 0 ≤ P) (h1 : P < 2147483648) :
    (Linux.Start_interval P b).it_value.tv_sec = P / 1000 ∧
    (Linux.Start_interval P b).it_value.tv_nsec = (P % 1000) * 1000000 ∧
    0 ≤ (Linux.Start_interval P b).it_value.tv_nsec ∧
    (Linux.Start_interval P b).it_value.tv_nsec < 1000000000 ∧
    (Linux.Start_interval P b).it_value.tv_sec * 1000000000 +
      (Linux.Start_interval P b).it_value.tv_nsec = P * 1000000 ∧
    (Linux.Start_interval P b).it_interval =
      (if b = true then (Linux.Start_interval P b).it_value else Linux.timespec.zero) := by
  have hv := Start_interval_it_value P b h0 h1
  rw [hv]
  refine ⟨rfl, rfl, ?_, ?_, ?_, ?_⟩
  · show 0 ≤ (P % 1000) * 1000000
    omega
  · show (P % 1000) * 1000000 < 1000000000
    omega
  · show P / 1000 * 1000000000 + (P % 1000) * 1000000 = P * 1000000
    omega
  · cases b
    · simp [Linux.Start_interval]
    · rw [← hv]; simp [Linux.Start_interval]

/-- C9 (amended), at `P = 1500` ms, periodic. -/
theorem C9_period_conversion_witness :
    ((0 : Int) ≤ 1500 ∧ (1500 : Int) < 2147483648) ∧
    (Linux.Start_interval 1500 true).it_value.tv_sec = 1500 / 1000 ∧
    (Linux.Start_interval 1500 true).it_value.tv_nsec = (1500 % 1000) * 1000000 ∧
    0 ≤ (Linux.Start_interval 1500 true).it_value.tv_nsec ∧
    (Linux.Start_interval 1500 true).it_value.tv_nsec < 1000000000 ∧
    (Linux.Start_interval 1500 true).it_value.tv_sec * 1000000000 +
      (Linux.Start_interval 1500 true).it_value.tv_nsec = 1500 * 1000000 ∧
    (Linux.Start_interval 1500 true).it_interval =
      (if true = true then (Linux.Start_interval 1500 true).it_value
        else Linux.timespec.zero) :=
  ⟨⟨by decide, by decide⟩, C9_period_conversion 1500 true (by decide) (by decide)⟩

/-- C10 (code defect, Variant A).  `Start()` passes the literal `0` as `DueTime`: for a
one-shot timer of period 50 ms the registration has due time 0 and period 0, so the
first expiration is immediate and the configured period is not used at all; and for
every period and flag the due time is 0. -/
theorem C10_Start_due_time_is_zero (P : Interval) (b : Bool) :
    (Win32.Start Win32.fresh false).exit = Exit.returned ∧
    (Win32.Start Win32.fresh false).world.system.timers =
      [{ handle := Win32.HANDLE.object 2, queue := Win32.HANDLE.object 1,
         dueTime := 0, period := 0, flags := 0 }] ∧
    GetPeriod Win32.fresh.timer = 50 ∧
    (Win32.Start_arguments P b).1 = 0 := by
  refine ⟨by decide, by decide, by decide, rfl⟩

/-! ## Fires -/

theorem Linux.pollerBody_timer (w : Linux.World) (interrupted : Bool) :
    (Linux.pollerBody w interrupted).timer = w.timer := by
  unfold Linux.pollerBody
  simp only
  split_ifs <;> rfl

/-- C8.  A fire does not clear `isRunning`: one execution of the worker's loop body
(Variant B), one worker step, and one run of the trampoline (Variant A) leave the whole
`Timer` object unchanged, in particular `isRunning`, `period` and `isPeriodic`; so
`IsRunning()` keeps its value through a fire.  When the callback is empty at fire time
nothing is invoked: the invocation log is unchanged. -/
theorem C8_fire_keeps_isRunning (wl : Linux.World) (interrupted : Bool) (ww : Win32.World)
    (log : List Nat) :
    (Linux.pollerBody wl interrupted).timer = wl.timer ∧
    (Linux.pollerStep wl interrupted).timer = wl.timer ∧
    IsRunning (Linux.pollerBody wl interrupted).timer = IsRunning wl.timer ∧
    (Linux.pollerBody { wl with timer := SetCallback wl.timer none } interrupted).invoked =
      wl.invoked ∧
    (Win32.fire ww).timer = ww.timer ∧
    (Win32.fire ww).system = ww.system ∧
    IsRunning (Win32.fire ww).timer = IsRunning ww.timer ∧
    (Win32.fire { ww with timer := SetCallback ww.timer none }).invoked = ww.invoked ∧
    Win32.WinTimerCallback (some (SetCallback ww.timer none)) log = log ∧
    Win32.WinTimerCallback none log = log := by
  have hb := Linux.pollerBody_timer wl interrupted
  refine ⟨hb, ?_, by rw [hb], ?_, ?_, ?_, ?_, ?_, ?_, rfl⟩
  · unfold Linux.pollerStep
    split_ifs
    · exact hb
    · rfl
  · unfold Linux.pollerBody
    simp only [GetCallback, SetCallback]
    split_ifs <;> simp_all
  · unfold Win32.fire; split_ifs <;> rfl
  · unfold Win32.fire; split_ifs <;> rfl
  · unfold Win32.fire; split_ifs <;> rfl
  · unfold Win32.fire Win32.WinTimerCallback
    simp only [GetCallback, SetCallback]
    split_ifs <;> simp_all
  · simp [Win32.WinTimerCallback, GetCallback, SetCallback]

/-! ## Variant A: cleanup -/

theorem Win32.DeleteTimerQueueTimer_queues (s : Win32.System) (q t : Win32.HANDLE) :
    (Win32.DeleteTimerQueueTimer s q t).queues = s.queues ∧
    (Win32.DeleteTimerQueueTimer s q t).nextId = s.nextId := by
  unfold Win32.DeleteTimerQueueTimer
  split_ifs <;> exact ⟨rfl, rfl⟩

theorem Win32.DeleteTimerQueueEx_nextId (s : Win32.System) (q : Win32.HANDLE) :
    (Win32.DeleteTimerQueueEx s q).nextId = s.nextId := by
  unfold Win32.DeleteTimerQueueEx
  split_ifs <;> rfl

theorem Win32.CleanupImpl_timer (w : Win32.World) (inflight : Bool) :
    (Win32.CleanupImpl w inflight).timer = w.timer := by
  unfold Win32.CleanupImpl
  simp only
  split_ifs <;> rfl

theorem Win32.CleanupImpl_nextId (w : Win32.World) (inflight : Bool) :
    (Win32.CleanupImpl w inflight).system.nextId = w.system.nextId := by
  unfold Win32.CleanupImpl
  simp only
  split_ifs <;>
    simp [Win32.DeleteTimerQueueEx_nextId, (Win32.DeleteTimerQueueTimer_queues _ _ _).2]

theorem Win32.CleanupImpl_queues (w : Win32.World) (inflight : Bool)
    (hq : w.timer.impl.timerQueue ∈ w.system.queues)
    (hi : w.timer.impl.timerQueue ≠ Win32.HANDLE.INVALID_HANDLE_VALUE) :
    (Win32.CleanupImpl w inflight).system.queues =
      w.system.queues.filter (fun q => decide (q ≠ w.timer.impl.timerQueue)) := by
  unfold Win32.CleanupImpl
  simp only
  split_ifs <;>
    simp [Win32.DeleteTimerQueueEx, (Win32.DeleteTimerQueueTimer_queues _ _ _).1, hq]

theorem Win32.Stop_timer (w : Win32.World) (inflight fails : Bool) :
    (Win32.Stop w inflight fails).timer =
      { w.timer with
          isRunning := false,
          impl := { w.timer.impl with
            timerQueue := (Win32.CreateTimerQueue
              (Win32.CleanupImpl { w with timer := { w.timer with isRunning := false } }
                inflight).system fails).2 } } := by
  simp [Win32.Stop, Win32.InitializeImpl, Win32.CleanupImpl_timer]

/-! ## Stop on a timer that is not running -/

/-- C3, as stated, fails on Variant A: `Stop()` on the freshly constructed timer replaces
the queue handle in `impl`, the queue the timer held is deleted, and a second `Stop()`
changes the state again. -/
theorem C3_counterexample :
    IsRunning Win32.fresh.timer = false ∧
    (Win32.Stop Win32.fresh false false).timer.impl ≠ Win32.fresh.timer.impl ∧
    Win32.fresh.timer.impl.timerQueue ∈ Win32.fresh.system.queues ∧
    Win32.fresh.timer.impl.timerQueue ∉ (Win32.Stop Win32.fresh false false).system.queues ∧
    Win32.Stop (Win32.Stop Win32.fresh false false) false false ≠
      Win32.Stop Win32.fresh false false := by
  decide

/-- C3 (amended).  `Stop()` on a timer that is not running leaves `period`, `callback` and
`isPeriodic` as they were, with `IsRunning()` false afterwards.  On Variant B (no worker
attached) nothing else changes either: the result is the same world with `isRunning`
cleared, and `Stop();Stop()` equals a single `Stop()`.  On Variant A the call is not a
no-op on the backend: the timer queue of the object is deleted and a new queue is
created, whose handle replaces the old one in `impl`. -/
theorem C3_Stop_not_running (wl : Linux.World) (i1 i2 : Option Bool) (ww : Win32.World)
    (inflight : Bool)
    (hl : wl.timer.impl.poller = false)
    (hq : ww.timer.impl.timerQueue ∈ ww.system.queues)
    (hi : ww.timer.impl.timerQueue ≠ Win32.HANDLE.INVALID_HANDLE_VALUE) :
    Linux.Stop wl i1 = { wl with timer := { wl.timer with isRunning := false } } ∧
    IsRunning (Linux.Stop wl i1).timer = false ∧
    Linux.Stop (Linux.Stop wl i1) i2 = Linux.Stop wl i1 ∧
    (Win32.Stop ww inflight false).timer.period = ww.timer.period ∧
    (Win32.Stop ww inflight false).timer.callback = ww.timer.callback ∧
    (Win32.Stop ww inflight false).timer.isPeriodic = ww.timer.isPeriodic ∧
    IsRunning (Win32.Stop ww inflight false).timer = false ∧
    (Win32.Stop ww inflight false).timer.impl.timerQueue =
      Win32.HANDLE.object ww.system.nextId ∧
    (Win32.Stop ww inflight false).system.queues =
      Win32.HANDLE.object ww.system.nextId ::
        ww.system.queues.filter (fun q => decide (q ≠ ww.timer.impl.timerQueue)) := by
  have e1 : Linux.Stop wl i1 = { wl with timer := { wl.timer with isRunning := false } } := by
    simp [Linux.Stop, hl]
  have e2 : Linux.Stop (Linux.Stop wl i1) i2 = Linux.Stop wl i1 := by
    rw [e1]; simp [Linux.Stop, hl]
  have ht := Win32.Stop_timer ww inflight false
  have hn := Win32.CleanupImpl_nextId { ww with timer := { ww.timer with isRunning := false } }
    inflight
  have hqs := Win32.CleanupImpl_queues { ww with timer := { ww.timer with isRunning := false } }
    inflight hq hi
  refine ⟨e1, by rw [e1]; rfl, e2, by rw [ht], by rw [ht], by rw [ht], by rw [ht]; rfl, ?_, ?_⟩
  · rw [ht]
    simp [Win32.CreateTimerQueue, hn]
  · simp [Win32.Stop, Win32.InitializeImpl, Win32.CreateTimerQueue, hn, hqs]

/-- C3 (amended), on the freshly constructed timers of both variants. -/
theorem C3_Stop_not_running_witness :
    (Linux.fresh.timer.impl.poller = false ∧
      Win32.fresh.timer.impl.timerQueue ∈ Win32.fresh.system.queues ∧
      Win32.fresh.timer.impl.timerQueue ≠ Win32.HANDLE.INVALID_HANDLE_VALUE) ∧
    Linux.Stop Linux.fresh none =
      { Linux.fresh with timer := { Linux.fresh.timer with isRunning := false } } ∧
    IsRunning (Linux.Stop Linux.fresh none).timer = false ∧
    Linux.Stop (Linux.Stop Linux.fresh none) none = Linux.Stop Linux.fresh none ∧
    (Win32.Stop Win32.fresh false false).timer.period = Win32.fresh.timer.period ∧
    (Win32.Stop Win32.fresh false false).timer.callback = Win32.fresh.timer.callback ∧
    (Win32.Stop Win32.fresh false false).timer.isPeriodic = Win32.fresh.timer.isPeriodic ∧
    IsRunning (Win32.Stop Win32.fresh false false).timer = false ∧
    (Win32.Stop Win32.fresh false false).timer.impl.timerQueue =
      Win32.HANDLE.object Win32.fresh.system.nextId ∧
    (Win32.Stop Win32.fresh false false).system.queues =
      Win32.HANDLE.object Win32.fresh.system.nextId ::
        Win32.fresh.system.queues.filter
          (fun q => decide (q ≠ Win32.fresh.timer.impl.timerQueue)) :=
  ⟨⟨by decide, by decide, by decide⟩,
    C3_Stop_not_running Linux.fresh none none Win32.fresh false (by decide) (by decide)
      (by decide)⟩

/-! ## A failed Start -/

theorem Linux.Start_runtime_error_iff (w : Linux.World) (accept : Bool) :
    (Linux.Start w accept).exit = Exit.runtime_error ↔
      ¬ (w.timer.impl.timerfd ∈ w.kernel.openFds ∧ accept = true) := by
  unfold Linux.Start Linux.timerfd_settime
  by_cases h : w.timer.impl.timerfd ∈ w.kernel.openFds ∧ accept = true
  · simp only [h, and_self, if_true]
    by_cases hp : w.timer.impl.poller = true <;> simp [hp]
  · simp [h]

theorem Linux.Start_failed_closes (w : Linux.World) (accept : Bool)
    (h : (Linux.Start w accept).exit = Exit.runtime_error) :
    (Linux.Start w accept).world =
      { w with kernel :=
          Linux.close (Linux.close w.kernel w.timer.impl.timerfd) w.timer.impl.epollfd } := by
  have hn := (Linux.Start_runtime_error_iff w accept).mp h
  unfold Linux.Start Linux.timerfd_settime
  simp [hn]

theorem Win32.Start_failed_unchanged (w : Win32.World) (fails : Bool)
    (h : (Win32.Start w fails).exit = Exit.runtime_error) :
    (Win32.Start w fails).world = w := by
  unfold Win32.Start at h ⊢
  simp only at h ⊢
  cases hr : (Win32.CreateTimerQueueTimer w.system w.timer.impl.timerQueue
      (Win32.Start_arguments (GetPeriod w.timer) w.timer.isPeriodic).1
      (Win32.Start_arguments (GetPeriod w.timer) w.timer.isPeriodic).2.1
      (Win32.Start_arguments (GetPeriod w.timer) w.timer.isPeriodic).2.2 fails).2 with
  | none => simp
  | some hd => rw [hr] at h; simp at h

/-- C5, as stated, fails on Variant B: after a `Start()` whose `timerfd_settime` was
rejected, the timer descriptor (open before the call) is closed, so the backend is not
the backend of a constructed timer, and a later `Start()` that the system would accept
fails as well. -/
theorem C5_counterexample :
    (Linux.Start Linux.fresh false).exit = Exit.runtime_error ∧
    Linux.fresh.timer.impl.timerfd ∈ Linux.fresh.kernel.openFds ∧
    (Linux.Start Linux.fresh false).world.timer.impl.timerfd ∉
      (Linux.Start Linux.fresh false).world.kernel.openFds ∧
    (Linux.Start (Linux.Start Linux.fresh false).world true).exit = Exit.runtime_error := by
  decide

/-- C5 (amended).  When `Start()` fails with a start error, `isRunning` keeps its pre-call
value, no worker is spawned and `period`, `callback`, `isPeriodic` are unchanged (the
whole `Timer` object is unchanged) and nothing is invoked.  On Variant A the system state
is unchanged as well, so the timer is still the constructed timer it was.  On Variant B
the failed `Start()` has closed both descriptors: the backend is not reusable and every
later `Start()` fails with a start error again. -/
theorem C5_failed_Start (wl : Linux.World) (accept again : Bool) (ww : Win32.World)
    (fails : Bool)
    (hl : (Linux.Start wl accept).exit = Exit.runtime_error)
    (hw : (Win32.Start ww fails).exit = Exit.runtime_error) :
    (Linux.Start wl accept).world.timer = wl.timer ∧
    (Linux.Start wl accept).world.invoked = wl.invoked ∧
    wl.timer.impl.timerfd ∉ (Linux.Start wl accept).world.kernel.openFds ∧
    wl.timer.impl.epollfd ∉ (Linux.Start wl accept).world.kernel.openFds ∧
    (Linux.Start (Linux.Start wl accept).world again).exit = Exit.runtime_error ∧
    (Win32.Start ww fails).world = ww := by
  have hworld := Linux.Start_failed_closes wl accept hl
  have h3 : wl.timer.impl.timerfd ∉ (Linux.Start wl accept).world.kernel.openFds := by
    rw [hworld]
    exact Linux.not_mem_close_of_not_mem _ _ _ (Linux.not_mem_close _ _)
  refine ⟨by rw [hworld], by rw [hworld], h3, ?_, ?_, ?_⟩
  · rw [hworld]
    exact Linux.not_mem_close _ _
  · rw [Linux.Start_runtime_error_iff]
    intro hc
    apply h3
    have ht : (Linux.Start wl accept).world.timer = wl.timer := by rw [hworld]
    rw [← ht]
    exact hc.1
  · exact Win32.Start_failed_unchanged ww fails hw

/-- C5 (amended), on the freshly constructed timers: `timerfd_settime` rejected on
Variant B, `CreateTimerQueueTimer` refused on Variant A. -/
theorem C5_failed_Start_witness :
    ((Linux.Start Linux.fresh false).exit = Exit.runtime_error ∧
      (Win32.Start Win32.fresh true).exit = Exit.runtime_error) ∧
    (Linux.Start Linux.fresh false).world.timer = Linux.fresh.timer ∧
    (Linux.Start Linux.fresh false).world.invoked = Linux.fresh.invoked ∧
    Linux.fresh.timer.impl.timerfd ∉ (Linux.Start Linux.fresh false).world.kernel.openFds ∧
    Linux.fresh.timer.impl.epollfd ∉ (Linux.Start Linux.fresh false).world.kernel.openFds ∧
    (Linux.Start (Linux.Start Linux.fresh false).world true).exit = Exit.runtime_error ∧
    (Win32.Start Win32.fresh true).world = Win32.fresh :=
  ⟨⟨by decide, by decide⟩,
    C5_failed_Start Linux.fresh false true Win32.fresh true (by decide) (by decide)⟩

/-! ## Stop ends the worker and removes the registration -/

theorem Linux.join_spec (w : Linux.World) (inflight : Option Bool) :
    (Linux.join w inflight).timer =
      { w.timer with impl := { w.timer.impl with poller := false } } ∧
    (Linux.join w inflight).kernel.openFds = w.kernel.openFds := by
  unfold Linux.join
  cases inflight with
  | none => exact ⟨rfl, rfl⟩
  | some i =>
    refine ⟨by simp only [Linux.pollerBody_timer], ?_⟩
    simp only [Linux.pollerBody, Linux.read]
    split_ifs <;> rfl

theorem Linux.Stop_spec (w : Linux.World) (inflight : Option Bool) :
    (Linux.Stop w inflight).timer =
      { w.timer with isRunning := false, impl := { w.timer.impl with poller := false } } ∧
    (Linux.Stop w inflight).kernel.openFds = w.kernel.openFds := by
  unfold Linux.Stop
  by_cases hp : w.timer.impl.poller = true
  · simp only [hp, if_true]
    have hj := Linux.join_spec { w with timer := { w.timer with isRunning := false } } inflight
    exact ⟨hj.1, hj.2⟩
  · have hf : w.timer.impl.poller = false := by simpa using hp
    rw [if_neg hp]
    refine ⟨?_, rfl⟩
    show ({ w.timer with isRunning := false } : Timer Linux.TimerImpl) = _
    rw [← hf]

theorem Win32.CleanupImpl_system (w : Win32.World) (inflight : Bool) :
    (Win32.CleanupImpl w inflight).system =
      (if w.timer.impl.timerQueue ≠ Win32.HANDLE.INVALID_HANDLE_VALUE then
        Win32.DeleteTimerQueueEx
          (if w.timer.impl.timerQueueTimer ≠ Win32.HANDLE.INVALID_HANDLE_VALUE then
            Win32.DeleteTimerQueueTimer w.system w.timer.impl.timerQueue
              w.timer.impl.timerQueueTimer
          else w.system) w.timer.impl.timerQueue
      else
        (if w.timer.impl.timerQueueTimer ≠ Win32.HANDLE.INVALID_HANDLE_VALUE then
            Win32.DeleteTimerQueueTimer w.system w.timer.impl.timerQueue
              w.timer.impl.timerQueueTimer
          else w.system)) := by
  unfold Win32.CleanupImpl
  simp only
  split_ifs <;> rfl

theorem Win32.mem_DeleteTimerQueueTimer (s : Win32.System) (q t : Win32.HANDLE)
    (r : Win32.QueueTimer) (h : r ∈ (Win32.DeleteTimerQueueTimer s q t).timers) :
    r ∈ s.timers ∧ ¬ (r.handle = t ∧ r.queue = q) := by
  unfold Win32.DeleteTimerQueueTimer at h
  split at h
  · simp only [List.mem_filter] at h
    refine ⟨h.1, fun hm => ?_⟩
    have h2 := h.2
    simp [hm.1, hm.2] at h2
  · rename_i hno
    refine ⟨h, fun hm => hno ?_⟩
    unfold Win32.isTimerOf
    rw [List.any_eq_true]
    exact ⟨r, h, by simpa using hm⟩

theorem Win32.mem_DeleteTimerQueueEx (s : Win32.System) (q : Win32.HANDLE)
    (r : Win32.QueueTimer) (h : r ∈ (Win32.DeleteTimerQueueEx s q).timers) :
    r ∈ s.timers ∧ (q ∈ s.queues → r.queue ≠ q) := by
  unfold Win32.DeleteTimerQueueEx at h
  split at h
  · simp only [List.mem_filter] at h
    exact ⟨h.1, fun _ => by simpa using h.2⟩
  · rename_i hno
    exact ⟨h, fun hq => absurd hq hno⟩

/-- Under exclusive ownership `CleanupImpl` leaves no live timer-queue timer. -/
theorem Win32.CleanupImpl_timers (w : Win32.World) (inflight : Bool)
    (hx : Win32.Exclusive w) : (Win32.CleanupImpl w inflight).system.timers = [] := by
  rw [List.eq_nil_iff_forall_not_mem]
  intro r hr
  rw [Win32.CleanupImpl_system] at hr
  by_cases hq : w.timer.impl.timerQueue ≠ Win32.HANDLE.INVALID_HANDLE_VALUE
  · rw [if_pos hq] at hr
    have h1 := Win32.mem_DeleteTimerQueueEx _ _ _ hr
    by_cases ht : w.timer.impl.timerQueueTimer ≠ Win32.HANDLE.INVALID_HANDLE_VALUE
    · rw [if_pos ht] at h1
      have h2 := Win32.mem_DeleteTimerQueueTimer _ _ _ _ h1.1
      obtain ⟨hrq, hor⟩ := hx r h2.1
      rcases hor with ⟨hh, _⟩ | ⟨hlive, _⟩
      · exact h2.2 ⟨hh, hrq⟩
      · exact h1.2 (by rw [(Win32.DeleteTimerQueueTimer_queues _ _ _).1]; exact hlive) hrq
    · rw [if_neg ht] at h1
      obtain ⟨hrq, hor⟩ := hx r h1.1
      rcases hor with ⟨_, hne⟩ | ⟨hlive, _⟩
      · exact ht hne
      · exact h1.2 hlive hrq
  · rw [if_neg hq] at hr
    by_cases ht : w.timer.impl.timerQueueTimer ≠ Win32.HANDLE.INVALID_HANDLE_VALUE
    · rw [if_pos ht] at hr
      have h2 := Win32.mem_DeleteTimerQueueTimer _ _ _ _ hr
      obtain ⟨hrq, hor⟩ := hx r h2.1
      rcases hor with ⟨hh, _⟩ | ⟨_, hne⟩
      · exact h2.2 ⟨hh, hrq⟩
      · exact hq hne
    · rw [if_neg ht] at hr
      obtain ⟨_, hor⟩ := hx r hr
      rcases hor with ⟨_, hne⟩ | ⟨_, hne⟩
      · exact ht hne
      · exact hq hne

theorem Win32.Stop_timers (w : Win32.World) (inflight fails : Bool)
    (hx : Win32.Exclusive w) : (Win32.Stop w inflight fails).system.timers = [] := by
  have hc := Win32.CleanupImpl_timers { w with timer := { w.timer with isRunning := false } }
    inflight hx
  unfold Win32.Stop Win32.InitializeImpl Win32.CreateTimerQueue
  simp only
  split_ifs <;> simpa using hc

theorem Win32.Exclusive_of_Running (w : Win32.World) (h : Win32.Running w) :
    Win32.Exclusive w := by
  obtain ⟨_, r, hts, hh, hq, hne⟩ := h
  intro r' hr'
  rw [hts, List.mem_singleton] at hr'
  subst hr'
  exact ⟨hq, Or.inl ⟨hh, hne⟩⟩

theorem Win32.Stop_queue (w : Win32.World) (inflight fails : Bool) :
    (Win32.Stop w inflight fails).timer.impl.timerQueue = Win32.HANDLE.NULL ∨
    (Win32.Stop w inflight fails).timer.impl.timerQueue ∈
      (Win32.Stop w inflight fails).system.queues := by
  unfold Win32.Stop Win32.InitializeImpl Win32.CreateTimerQueue
  cases fails <;> simp

/-! ## Restart -/

theorem Linux.Start_accepted_world (w : Linux.World)
    (ht : w.timer.impl.timerfd ∈ w.kernel.openFds) (hp : w.timer.impl.poller = false) :
    Linux.Start w true =
      ⟨{ timer := { w.timer with isRunning := true,
                                 impl := { w.timer.impl with poller := true } },
         kernel := { w.kernel with
           setting := some (Linux.Start_interval w.timer.period w.timer.isPeriodic),
           expirations := 0 },
         invoked := w.invoked }, Exit.returned⟩ := by
  unfold Linux.Start Linux.timerfd_settime
  simp [ht, hp, GetPeriod]

theorem Win32.Start_registered_world (w : Win32.World)
    (hq : w.timer.impl.timerQueue = Win32.HANDLE.NULL ∨
      w.timer.impl.timerQueue ∈ w.system.queues) :
    Win32.Start w false =
      ⟨{ timer := { w.timer with isRunning := true,
                                 impl := { w.timer.impl with
                                   timerQueueTimer := Win32.HANDLE.object w.system.nextId } },
         system := { w.system with
           timers := w.system.timers ++
             [{ handle := Win32.HANDLE.object w.system.nextId,
                queue := w.timer.impl.timerQueue, dueTime := 0,
                period := if w.timer.isPeriodic = true then toDWORD w.timer.period else 0,
                flags := 0 }],
           nextId := w.system.nextId + 1 },
         invoked := w.invoked }, Exit.returned⟩ := by
  unfold Win32.Start Win32.CreateTimerQueueTimer Win32.Start_arguments
  simp [hq, GetPeriod]

theorem Linux.epoll_wait_ne (k : Linux.Kernel) (epfd : Int) (h : epfd ∈ k.openFds) :
    Linux.epoll_wait k epfd false ≠ -1 := by
  unfold Linux.epoll_wait
  have h1 : ¬ (epfd ∉ k.openFds ∨ false = true) := by simp [h]
  rw [if_neg h1]
  split_ifs <;> decide

/-- An uninterrupted execution of the loop body with both descriptors open and unread
expirations invokes the callback the timer holds (nothing, when it is empty). -/
theorem Linux.pollerBody_fires (w : Linux.World)
    (he : w.timer.impl.epollfd ∈ w.kernel.openFds)
    (ht : w.timer.impl.timerfd ∈ w.kernel.openFds) (hn : 0 < w.kernel.expirations) :
    (Linux.pollerBody w false).invoked = invoke w.timer.callback w.invoked := by
  unfold Linux.pollerBody
  simp only [if_neg (Linux.epoll_wait_ne _ _ he)]
  cases hc : w.timer.callback <;> simp [Linux.read, ht, hn, GetCallback, hc, invoke]

/-- The restart sequence on a running timer, the arming call being accepted: the exit,
the request left in the backend as `Start()` computes it, the worker / registration,
the configuration read back and the effect of a fire. -/
theorem restart_of_Running (wl : Linux.World) (inflight : Option Bool)
    (ww : Win32.World) (winflight createFails : Bool) (p : Interval) (c : TimerCallback)
    (b : Bool) (n : Nat) (hl : Linux.Running wl) (hw : Win32.Running ww) :
    (Linux.restart wl inflight p c b true).exit = Exit.returned ∧
    (Linux.restart wl inflight p c b true).world.kernel.setting =
      some (Linux.Start_interval p b) ∧
    (Linux.restart wl inflight p c b true).world.timer.impl.poller = true ∧
    IsRunning (Linux.restart wl inflight p c b true).world.timer = true ∧
    GetPeriod (Linux.restart wl inflight p c b true).world.timer = p ∧
    GetCallback (Linux.restart wl inflight p c b true).world.timer = c ∧
    IsPeriodic (Linux.restart wl inflight p c b true).world.timer = b ∧
    (Linux.pollerStep
        (Linux.withExpirations (Linux.restart wl inflight p c b true).world (n + 1))
        false).invoked =
      invoke c (Linux.restart wl inflight p c b true).world.invoked ∧
    (Win32.restart ww winflight createFails p c b false).exit = Exit.returned ∧
    (Win32.restart ww winflight createFails p c b false).world.system.timers =
      [{ handle :=
           (Win32.restart ww winflight createFails p c b false).world.timer.impl.timerQueueTimer,
         queue := (Win32.restart ww winflight createFails p c b false).world.timer.impl.timerQueue,
         dueTime := 0, period := if b = true then toDWORD p else 0, flags := 0 }] ∧
    IsRunning (Win32.restart ww winflight createFails p c b false).world.timer = true ∧
    GetPeriod (Win32.restart ww winflight createFails p c b false).world.timer = p ∧
    GetCallback (Win32.restart ww winflight createFails p c b false).world.timer = c ∧
    IsPeriodic (Win32.restart ww winflight createFails p c b false).world.timer = b ∧
    (Win32.fire (Win32.restart ww winflight createFails p c b false).world).invoked =
      invoke c (Win32.restart ww winflight createFails p c b false).world.invoked := by
  obtain ⟨_, _, ht, he, _⟩ := hl
  have hs := Linux.Stop_spec wl inflight
  have hL : Linux.restart wl inflight p c b true = _ :=
    Linux.Start_accepted_world
      { Linux.Stop wl inflight with
        timer := SetPeriodic (SetCallback (SetPeriod (Linux.Stop wl inflight).timer p) c) b }
      (by simp [SetPeriodic, SetCallback, SetPeriod, hs.1, hs.2, ht])
      (by simp [SetPeriodic, SetCallback, SetPeriod, hs.1])
  have hx := Win32.Exclusive_of_Running ww hw
  have hts := Win32.Stop_timers ww winflight createFails hx
  have hW : Win32.restart ww winflight createFails p c b false = _ :=
    Win32.Start_registered_world
      { Win32.Stop ww winflight createFails with
        timer := SetPeriodic (SetCallback (SetPeriod
          (Win32.Stop ww winflight createFails).timer p) c) b }
      (by simpa [SetPeriodic, SetCallback, SetPeriod] using
        Win32.Stop_queue ww winflight createFails)
  rw [hL, hW]
  refine ⟨rfl, ?_, rfl, rfl, rfl, rfl, rfl, ?_, rfl, ?_, rfl, rfl, rfl, rfl, ?_⟩
  · simp [SetPeriodic, SetCallback, SetPeriod]
  · have he2 : wl.timer.impl.epollfd ∈ (Linux.Stop wl inflight).kernel.openFds := by
      rw [hs.2]; exact he
    have ht2 : wl.timer.impl.timerfd ∈ (Linux.Stop wl inflight).kernel.openFds := by
      rw [hs.2]; exact ht
    have hf := Linux.pollerBody_fires
      (Linux.withExpirations
        { timer :=
            { SetPeriodic (SetCallback (SetPeriod (Linux.Stop wl inflight).timer p) c) b with
              isRunning := true,
              impl := { (Linux.Stop wl inflight).timer.impl with poller := true } },
          kernel := { (Linux.Stop wl inflight).kernel with
            setting := some (Linux.Start_interval p b), expirations := 0 },
          invoked := (Linux.Stop wl inflight).invoked } (n + 1))
      (by simpa [Linux.withExpirations, SetPeriodic, SetCallback, SetPeriod, hs.1] using he2)
      (by simpa [Linux.withExpirations, SetPeriodic, SetCallback, SetPeriod, hs.1] using ht2)
      (by simp [Linux.withExpirations])
    simpa [Linux.pollerStep, Linux.withExpirations, SetPeriodic, SetCallback, SetPeriod]
      using hf
  · simp [SetPeriodic, SetCallback, SetPeriod, hts]
  · cases c <;>
      simp [Win32.fire, Win32.WinTimerCallback, GetCallback, SetPeriodic, SetCallback,
        SetPeriod, invoke]

/-! ## After Stop -/

theorem Linux.run_without_Start_no_worker (ops : List Linux.Op) (w : Linux.World)
    (hp : w.timer.impl.poller = false) (hops : ∀ op ∈ ops, op.isStart = false) :
    ∃ w1, Linux.run w ops = some w1 ∧ w1.timer.impl.poller = false ∧
      w1.invoked = w.invoked := by
  induction ops generalizing w with
  | nil => exact ⟨w, rfl, hp, rfl⟩
  | cons op ops ih =>
    have hrest : ∀ o ∈ ops, o.isStart = false := fun o ho => hops o (List.mem_cons_of_mem _ ho)
    have hop := hops op (List.mem_cons_self _ _)
    have key : ∃ w2, Linux.step w op = some w2 ∧ w2.timer.impl.poller = false ∧
        w2.invoked = w.invoked := by
      cases op with
      | Start a => simp [Linux.Op.isStart] at hop
      | Stop i =>
        refine ⟨Linux.Stop w i, rfl, ?_, ?_⟩
        · rw [(Linux.Stop_spec w i).1]
        · simp [Linux.Stop, hp]
      | SetPeriod q => exact ⟨_, rfl, hp, rfl⟩
      | SetCallback q => exact ⟨_, rfl, hp, rfl⟩
      | SetPeriodic q => exact ⟨_, rfl, hp, rfl⟩
      | expire => exact ⟨_, rfl, hp, rfl⟩
      | poll i =>
        refine ⟨w, ?_, hp, rfl⟩
        simp [Linux.step, Linux.pollerStep, hp]
    obtain ⟨w2, hstep, hp2, hinv2⟩ := key
    obtain ⟨w3, hrun, hp3, hinv3⟩ := ih w2 hp2 hrest
    refine ⟨w3, ?_, hp3, by rw [hinv3, hinv2]⟩
    simp [Linux.run, hstep, hrun]

theorem Win32.step_without_Start (w : Win32.World) (op : Win32.Op)
    (ht : w.system.timers = []) (hop : op.isStart = false) :
    (Win32.step w op).system.timers = [] ∧ (Win32.step w op).invoked = w.invoked := by
  cases op with
  | Start a => simp [Win32.Op.isStart] at hop
  | Stop i f =>
    have hx : Win32.Exclusive w := by
      intro r hr
      rw [ht] at hr
      exact absurd hr (List.not_mem_nil _)
    refine ⟨Win32.Stop_timers w i f hx, ?_⟩
    simp [Win32.step, Win32.Stop, Win32.InitializeImpl, Win32.CleanupImpl, Win32.isTimerOf, ht]
    split_ifs <;> rfl
  | SetPeriod q => exact ⟨ht, rfl⟩
  | SetCallback q => exact ⟨ht, rfl⟩
  | SetPeriodic q => exact ⟨ht, rfl⟩
  | fire => simp [Win32.step, Win32.fire, ht]

theorem Win32.run_without_Start_no_timer (ops : List Win32.Op) (w : Win32.World)
    (ht : w.system.timers = []) (hops : ∀ op ∈ ops, op.isStart = false) :
    (Win32.run w ops).system.timers = [] ∧ (Win32.run w ops).invoked = w.invoked := by
  induction ops generalizing w with
  | nil => exact ⟨ht, rfl⟩
  | cons op ops ih =>
    have hrest : ∀ o ∈ ops, o.isStart = false := fun o ho => hops o (List.mem_cons_of_mem _ ho)
    have h1 := Win32.step_without_Start w op ht (hops op (List.mem_cons_self _ _))
    have h2 := ih (Win32.step w op) h1.1 hrest
    exact ⟨h2.1, by rw [← h1.2]; exact h2.2⟩

/-- C7.  No callback invocation occurs after `Stop()` returns.  From the state `Stop()`
leaves, any sequence of steps without `Start()` (a further `Stop()`, setters, expirations
of the timer, attempts of the worker / trampoline to run) keeps the process alive, leaves
no worker attached (Variant B) and no live timer-queue timer (Variant A, under exclusive
ownership of the registrations), and leaves the invocation log exactly as it was when
`Stop()` returned; in the state reached the fire step changes nothing. -/
theorem C7_no_invocation_after_Stop (wl : Linux.World) (inflight : Option Bool)
    (opsl : List Linux.Op) (interrupted : Bool) (ww : Win32.World)
    (winflight createFails : Bool) (opsw : List Win32.Op)
    (hl : ∀ op ∈ opsl, op.isStart = false) (hx : Win32.Exclusive ww)
    (hw : ∀ op ∈ opsw, op.isStart = false) :
    (∃ w1, Linux.run (Linux.Stop wl inflight) opsl = some w1 ∧
      w1.timer.impl.poller = false ∧
      w1.invoked = (Linux.Stop wl inflight).invoked ∧
      Linux.pollerStep w1 interrupted = w1) ∧
    (Win32.run (Win32.Stop ww winflight createFails) opsw).system.timers = [] ∧
    (Win32.run (Win32.Stop ww winflight createFails) opsw).invoked =
      (Win32.Stop ww winflight createFails).invoked ∧
    Win32.fire (Win32.run (Win32.Stop ww winflight createFails) opsw) =
      Win32.run (Win32.Stop ww winflight createFails) opsw := by
  have hp : (Linux.Stop wl inflight).timer.impl.poller = false := by
    rw [(Linux.Stop_spec wl inflight).1]
  obtain ⟨w1, hrun, hp1, hinv1⟩ := Linux.run_without_Start_no_worker opsl _ hp hl
  have hW := Win32.run_without_Start_no_timer opsw _
    (Win32.Stop_timers ww winflight createFails hx) hw
  refine ⟨⟨w1, hrun, hp1, hinv1, ?_⟩, hW.1, hW.2, ?_⟩
  · simp [Linux.pollerStep, hp1]
  · simp [Win32.fire, hW.1]

/-- The timer `Win32.running` is running. -/
theorem Win32.running_Running : Win32.Running Win32.running :=
  ⟨by decide,
    { handle := Win32.HANDLE.object 2, queue := Win32.HANDLE.object 1, dueTime := 0,
      period := 0, flags := 0 },
    by decide, by decide, by decide, by decide⟩

/-- The request `Start()` builds for a period that fits an `int`. -/
theorem Start_interval_of_range (P : Int) (b : Bool) (h0 : 0 ≤ P) (h1 : P < 2147483648) :
    Linux.Start_interval P b =
      { it_interval :=
          if b = true then { tv_sec := P / 1000, tv_nsec := (P % 1000) * 1000000 }
          else Linux.timespec.zero,
        it_value := { tv_sec := P / 1000, tv_nsec := (P % 1000) * 1000000 } } := by
  have hv := Start_interval_it_value P b h0 h1
  cases b
  · have hi : (Linux.Start_interval P false).it_interval = Linux.timespec.zero := by
      simp [Linux.Start_interval]
    calc Linux.Start_interval P false
        = { it_interval := (Linux.Start_interval P false).it_interval,
            it_value := (Linux.Start_interval P false).it_value } := rfl
      _ = _ := by rw [hi, hv]; rfl
  · have hi : (Linux.Start_interval P true).it_interval =
        (Linux.Start_interval P true).it_value := by
      simp [Linux.Start_interval]
    calc Linux.Start_interval P true
        = { it_interval := (Linux.Start_interval P true).it_interval,
            it_value := (Linux.Start_interval P true).it_value } := rfl
      _ = _ := by rw [hi, hv]; rfl

theorem toDWORD_of_range (x : Int) (h0 : 0 ≤ x) (h1 : x < 4294967296) : toDWORD x = x := by
  unfold toDWORD
  omega

theorem invoke_eq_append (c : TimerCallback) (log : List Nat) :
    invoke c log = log ++ c.toList := by
  cases c <;> simp [invoke]

/-- C6, as stated, fails on Variant B: the running timer is stopped, the period is set to
`2^32 + 1500` ms (periodic, callback 9) and `Start()` is accepted; the period read back
is `2^32 + 1500` ms, but the timer descriptor is armed with `(1 s, 500000000 ns)`, that is
1500 ms: the conversion to `int` dropped the high part of the count. -/
theorem C6_counterexample :
    Linux.Running Linux.running ∧
    (Linux.restart Linux.running none 4294968796 (some 9) true true).exit = Exit.returned ∧
    GetPeriod (Linux.restart Linux.running none 4294968796 (some 9) true true).world.timer =
      4294968796 ∧
    (Linux.restart Linux.running none 4294968796 (some 9) true true).world.kernel.setting =
      some { it_interval := { tv_sec := 1, tv_nsec := 500000000 },
             it_value := { tv_sec := 1, tv_nsec := 500000000 } } ∧
    (1 : Int) * 1000000000 + 500000000 ≠ 4294968796 * 1000000 := by
  decide

/-- C6 (amended).  `Stop()` followed by `SetPeriod(p)`, `SetCallback(c)`, `SetPeriodic(b)`
and `Start()` on a running timer, with `0 ≤ p < 2^31` and the arming call accepted by the
system.  `Start()` returns normally, `IsRunning()` is true and the configuration read back
is `p`, `c`, `b`.  On Variant B the timer descriptor is armed with
`it_value = (p / 1000, (p mod 1000) * 1000000)` and with `it_interval` equal to `it_value`
when `b` is true and `(0, 0)` when it is false; one worker is attached; an uninterrupted
worker step with unread expirations appends exactly `c` to the invocation log (nothing
when `c` is empty).  On Variant A exactly one timer-queue timer is live: it is the one
`impl` names, it is in the queue of the object, and its repeat period is `p` when `b` is
true and `0` when it is false; a run of the trampoline appends exactly `c` to the log. -/
theorem C6_restart_uses_latest_configuration (wl : Linux.World) (inflight : Option Bool)
    (ww : Win32.World) (winflight createFails : Bool) (p : Interval) (c : TimerCallback)
    (b : Bool) (n : Nat) (hl : Linux.Running wl) (hw : Win32.Running ww)
    (h0 : 0 ≤ p) (h1 : p < 2147483648) :
    (Linux.restart wl inflight p c b true).exit = Exit.returned ∧
    (Linux.restart wl inflight p c b true).world.kernel.setting =
      some { it_interval :=
               if b = true then { tv_sec := p / 1000, tv_nsec := (p % 1000) * 1000000 }
               else Linux.timespec.zero,
             it_value := { tv_sec := p / 1000, tv_nsec := (p % 1000) * 1000000 } } ∧
    (Linux.restart wl inflight p c b true).world.timer.impl.poller = true ∧
    IsRunning (Linux.restart wl inflight p c b true).world.timer = true ∧
    GetPeriod (Linux.restart wl inflight p c b true).world.timer = p ∧
    GetCallback (Linux.restart wl inflight p c b true).world.timer = c ∧
    IsPeriodic (Linux.restart wl inflight p c b true).world.timer = b ∧
    (Linux.pollerStep
        (Linux.withExpirations (Linux.restart wl inflight p c b true).world (n + 1))
        false).invoked =
      (Linux.restart wl inflight p c b true).world.invoked ++ c.toList ∧
    (Win32.restart ww winflight createFails p c b false).exit = Exit.returned ∧
    (∃ r, (Win32.restart ww winflight createFails p c b false).world.system.timers = [r] ∧
      r.handle =
        (Win32.restart ww winflight createFails p c b false).world.timer.impl.timerQueueTimer ∧
      r.queue =
        (Win32.restart ww winflight createFails p c b false).world.timer.impl.timerQueue ∧
      r.period = (if b = true then p else 0)) ∧
    IsRunning (Win32.restart ww winflight createFails p c b false).world.timer = true ∧
    GetPeriod (Win32.restart ww winflight createFails p c b false).world.timer = p ∧
    GetCallback (Win32.restart ww winflight createFails p c b false).world.timer = c ∧
    IsPeriodic (Win32.restart ww winflight createFails p c b false).world.timer = b ∧
    (Win32.fire (Win32.restart ww winflight createFails p c b false).world).invoked =
      (Win32.restart ww winflight createFails p c b false).world.invoked ++ c.toList := by
  obtain ⟨a1, a2, a3, a4, a5, a6, a7, a8, a9, a10, a11, a12, a13, a14, a15⟩ :=
    restart_of_Running wl inflight ww winflight createFails p c b n hl hw
  refine ⟨a1, ?_, a3, a4, a5, a6, a7, ?_, a9, ?_, a11, a12, a13, a14, ?_⟩
  · rw [a2, Start_interval_of_range p b h0 h1]
  · rw [a8, invoke_eq_append]
  · refine ⟨_, a10, rfl, rfl, ?_⟩
    show (if b = true then toDWORD p else 0) = if b = true then p else 0
    rw [toDWORD_of_range p h0 (lt_trans h1 (by norm_num))]
  · rw [a15, invoke_eq_append]

/-- C6 (amended), on the running timers (period 50 ms, callback 1, one-shot) restarted
with period 70 ms, callback 9, periodic; the worker was inside its loop body when
`Stop()` was called. -/
theorem C6_restart_uses_latest_configuration_witness :
    (Linux.Running Linux.running ∧ Win32.Running Win32.running ∧
      (0 : Int) ≤ 70 ∧ (70 : Int) < 2147483648) ∧
    (Linux.restart Linux.running (some false) 70 (some 9) true true).exit = Exit.returned ∧
    (Linux.restart Linux.running (some false) 70 (some 9) true true).world.kernel.setting =
      some { it_interval :=
               if true = true then { tv_sec := 70 / 1000, tv_nsec := (70 % 1000) * 1000000 }
               else Linux.timespec.zero,
             it_value := { tv_sec := 70 / 1000, tv_nsec := (70 % 1000) * 1000000 } } ∧
    (Linux.restart Linux.running (some false) 70 (some 9) true true).world.timer.impl.poller =
      true ∧
    IsRunning (Linux.restart Linux.running (some false) 70 (some 9) true true).world.timer =
      true ∧
    GetPeriod (Linux.restart Linux.running (some false) 70 (some 9) true true).world.timer =
      70 ∧
    GetCallback (Linux.restart Linux.running (some false) 70 (some 9) true true).world.timer =
      some 9 ∧
    IsPeriodic (Linux.restart Linux.running (some false) 70 (some 9) true true).world.timer =
      true ∧
    (Linux.pollerStep
        (Linux.withExpirations
          (Linux.restart Linux.running (some false) 70 (some 9) true true).world (0 + 1))
        false).invoked =
      (Linux.restart Linux.running (some false) 70 (some 9) true true).world.invoked ++
        (some 9 : TimerCallback).toList ∧
    (Win32.restart Win32.running true false 70 (some 9) true false).exit = Exit.returned ∧
    (∃ r, (Win32.restart Win32.running true false 70 (some 9) true false).world.system.timers =
        [r] ∧
      r.handle =
        (Win32.restart Win32.running true false 70 (some 9) true
          false).world.timer.impl.timerQueueTimer ∧
      r.queue =
        (Win32.restart Win32.running true false 70 (some 9) true
          false).world.timer.impl.timerQueue ∧
      r.period = (if true = true then 70 else 0)) ∧
    IsRunning (Win32.restart Win32.running true false 70 (some 9) true false).world.timer =
      true ∧
    GetPeriod (Win32.restart Win32.running true false 70 (some 9) true false).world.timer =
      70 ∧
    GetCallback (Win32.restart Win32.running true false 70 (some 9) true false).world.timer =
      some 9 ∧
    IsPeriodic (Win32.restart Win32.running true false 70 (some 9) true false).world.timer =
      true ∧
    (Win32.fire (Win32.restart Win32.running true false 70 (some 9) true false).world).invoked =
      (Win32.restart Win32.running true false 70 (some 9) true false).world.invoked ++
        (some 9 : TimerCallback).toList :=
  ⟨⟨by decide, Win32.running_Running, by decide, by decide⟩,
    C6_restart_uses_latest_configuration Linux.running (some false) Win32.running true false
      70 (some 9) true 0 (by decide) Win32.running_Running (by decide) (by decide)⟩

/-- C7, on the running timers: after `Stop()` the timer expires, the worker / trampoline
tries to run, the callback is replaced and `Stop()` is called again. -/
theorem C7_no_invocation_after_Stop_witness :
    ((∀ op ∈ [Linux.Op.expire, Linux.Op.poll false, Linux.Op.SetCallback (some 2),
        Linux.Op.Stop none, Linux.Op.expire, Linux.Op.poll false], op.isStart = false) ∧
      Win32.Exclusive Win32.running ∧
      (∀ op ∈ [Win32.Op.fire, Win32.Op.SetCallback (some 2), Win32.Op.Stop false false,
        Win32.Op.fire], op.isStart = false)) ∧
    (∃ w1, Linux.run (Linux.Stop Linux.running (some false))
        [Linux.Op.expire, Linux.Op.poll false, Linux.Op.SetCallback (some 2),
          Linux.Op.Stop none, Linux.Op.expire, Linux.Op.poll false] = some w1 ∧
      w1.timer.impl.poller = false ∧
      w1.invoked = (Linux.Stop Linux.running (some false)).invoked ∧
      Linux.pollerStep w1 false = w1) ∧
    (Win32.run (Win32.Stop Win32.running true false)
      [Win32.Op.fire, Win32.Op.SetCallback (some 2), Win32.Op.Stop false false,
        Win32.Op.fire]).system.timers = [] ∧
    (Win32.run (Win32.Stop Win32.running true false)
      [Win32.Op.fire, Win32.Op.SetCallback (some 2), Win32.Op.Stop false false,
        Win32.Op.fire]).invoked = (Win32.Stop Win32.running true false).invoked ∧
    Win32.fire (Win32.run (Win32.Stop Win32.running true false)
      [Win32.Op.fire, Win32.Op.SetCallback (some 2), Win32.Op.Stop false false,
        Win32.Op.fire]) =
      Win32.run (Win32.Stop Win32.running true false)
        [Win32.Op.fire, Win32.Op.SetCallback (some 2), Win32.Op.Stop false false,
          Win32.Op.fire] :=
  ⟨⟨by decide, by decide, by decide⟩,
    C7_no_invocation_after_Stop Linux.running (some false) _ false Win32.running true false _
      (by decide) (by decide) (by decide)⟩

/-! ## The running and exclusive states are the ones the program reaches -/

/-- Variant B: a successful construction followed by an accepted `Start()` gives a running
timer, in every process. -/
theorem Linux.Running_of_Construct_Start (k : Linux.Kernel) (log : List Nat)
    (u : Linux.Indeterminate) (p : Interval) (c : TimerCallback) (b : Bool) :
    (Linux.Start (Linux.Construct k log u p c b Linux.InitFaults.none).world true).exit =
      Exit.returned ∧
    Linux.Running
      (Linux.Start (Linux.Construct k log u p c b Linux.InitFaults.none).world true).world := by
  have h1 := Linux.lowestFree_ne_neg_one k.openFds
  have h2 := Linux.lowestFree_ne_neg_one (Linux.lowestFree k.openFds :: k.openFds)
  have n2 := Linux.lowestFree_not_mem (Linux.lowestFree k.openFds :: k.openFds)
  have hne : Linux.lowestFree k.openFds ≠
      Linux.lowestFree (Linux.lowestFree k.openFds :: k.openFds) := by
    intro e
    apply n2
    rw [← e]
    exact List.mem_cons_self _ _
  have hC : (Linux.Construct k log u p c b Linux.InitFaults.none).world =
      { timer := { period := p, callback := c, isPeriodic := b, isRunning := u.isRunning,
                   impl := { timerfd := Linux.lowestFree k.openFds,
                             epollfd := Linux.lowestFree (Linux.lowestFree k.openFds :: k.openFds),
                             poller := false } },
        kernel := { openFds := Linux.lowestFree (Linux.lowestFree k.openFds :: k.openFds) ::
                      Linux.lowestFree k.openFds :: k.openFds,
                    setting := none, expirations := 0,
                    interest := [Linux.lowestFree k.openFds], badClose := k.badClose },
        invoked := log } := by
    simp [Linux.Construct, Linux.InitializeImpl, Linux.timerfd_create, Linux.epoll_create,
      Linux.epoll_ctl_add, Linux.InitFaults.none, h1, h2]
  rw [hC, Linux.Start_accepted_world _ (by simp) rfl]
  refine ⟨rfl, rfl, rfl, by simp, by simp, hne⟩

/-- Variant A: a freshly constructed timer in a system without timer-queue timers owns
all registrations (there are none). -/
theorem Win32.Exclusive_Construct (s : Win32.System) (log : List Nat)
    (u : Win32.Indeterminate) (p : Interval) (c : TimerCallback) (b fails : Bool)
    (hs : s.timers = []) :
    Win32.Exclusive (Win32.Construct s log u p c b fails).world := by
  intro r hr
  have ht : (Win32.Construct s log u p c b fails).world.system.timers = [] := by
    unfold Win32.Construct Win32.InitializeImpl Win32.CreateTimerQueue
    cases fails <;> simp [hs]
  rw [ht] at hr
  exact absurd hr (List.not_mem_nil _)

/-- Variant A: exclusive ownership is kept by every step, `Start()` being called only
while no registration is live. -/
theorem Win32.Exclusive_step (w : Win32.World) (op : Win32.Op) (hx : Win32.Exclusive w)
    (hc : op.isStart = true → w.system.timers = []) :
    Win32.Exclusive (Win32.step w op) := by
  cases op with
  | Start f =>
    have ht := hc rfl
    by_cases hok : f = false ∧
        (w.timer.impl.timerQueue = Win32.HANDLE.NULL ∨ w.timer.impl.timerQueue ∈ w.system.queues)
    · obtain ⟨rfl, hq⟩ := hok
      intro r hr
      simp only [Win32.step, Win32.Start_registered_world w hq, ht, List.nil_append,
        List.mem_singleton] at hr ⊢
      subst hr
      exact ⟨rfl, Or.inl ⟨rfl, by simp⟩⟩
    · have he : (Win32.Start w f).exit = Exit.runtime_error := by
        unfold Win32.Start Win32.CreateTimerQueueTimer
        simp [hok]
      simp only [Win32.step, Win32.Start_failed_unchanged w f he]
      exact hx
  | Stop i f =>
    intro r hr
    simp only [Win32.step] at hr
    rw [Win32.Stop_timers w i f hx] at hr
    exact absurd hr (List.not_mem_nil _)
  | SetPeriod q => exact hx
  | SetCallback q => exact hx
  | SetPeriodic q => exact hx
  | fire =>
    intro r hr
    have e1 : (Win32.step w Win32.Op.fire).system = w.system := by
      simp only [Win32.step, Win32.fire]; split_ifs <;> rfl
    have e2 : (Win32.step w Win32.Op.fire).timer = w.timer := by
      simp only [Win32.step, Win32.fire]; split_ifs <;> rfl
    rw [e1] at hr
    rw [e1, e2]
    exact hx r hr

/-- Variant A: every state reached from an exclusive state by steps that respect the
caller contract of `Start()` is exclusive. -/
theorem Win32.Exclusive_run (ops : List Win32.Op) (w : Win32.World)
    (hx : Win32.Exclusive w) (hc : Win32.respectsContract w ops) :
    Win32.Exclusive (Win32.run w ops) := by
  induction ops generalizing w with
  | nil => exact hx
  | cons op ops ih => exact ih _ (Win32.Exclusive_step w op hx hc.1) hc.2

/-- Variant A: `Start()`, the registration accepted, on a timer without live registration
whose queue is the default queue or a live queue gives a running timer. -/
theorem Win32.Running_of_Start (w : Win32.World) (ht : w.system.timers = [])
    (hq : w.timer.impl.timerQueue = Win32.HANDLE.NULL ∨
      w.timer.impl.timerQueue ∈ w.system.queues) :
    Win32.Running (Win32.Start w false).world := by
  rw [Win32.Start_registered_world w hq]
  refine ⟨rfl,
    { handle := Win32.HANDLE.object w.system.nextId, queue := w.timer.impl.timerQueue,
      dueTime := 0,
      period := if w.timer.isPeriodic = true then toDWORD w.timer.period else 0, flags := 0 },
    ?_, rfl, rfl, ?_⟩
  · simp only [ht, List.nil_append]
  · simp

end TimerSpec
